import Mathlib

/-!
# EventBroker operator: naming scheme, label sets and the reconcile pass

A shallow embedding of `controllers/namings.go` and of `Reconcile` from
`controllers/eventbroker_controller.go`.

Conventions of the embedding.

* A Go `string` is a Lean `String` (the valid UTF-8 strings); where the source
  indexes a string by byte, the bytes are those of its UTF-8 encoding.
* A Go `map[string]string` literal is an association list with `mapIndex` as
  the index expression `m[k]` (the zero value `""` for an absent key).
* A Go `[]string` is `Option (List String)`: `none` is the nil slice and
  `some []` the empty slice that is not nil, which `reflect.DeepEqual` tells
  apart.
* A function that can stop with a run-time fault returns `Option`.
-/

namespace PubSubPlus

/-! ## Go strings and maps -/

/-- A Go `map[string]string`, as the list of its entries in literal order. -/
abbrev GoMap := List (String × String)

/-- The two-valued index expression `v, ok := m[k]`. -/
def mapLookup : GoMap → String → Option String
  | [], _ => none
  | (k', v) :: rest, k => if k' = k then some v else mapLookup rest k

/-- The index expression `m[k]`: the value of `k`, the zero value `""` when absent. -/
def mapIndex (m : GoMap) (k : String) : String :=
  (mapLookup m k).getD ""

/-- The keys of a map. -/
def mapKeys (m : GoMap) : List String :=
  m.map Prod.fst

/-- UTF-8 encoding of one code point, as Go stores it in a string. -/
def utf8EncodeRune (c : Nat) : List Nat :=
  if c < 0x80 then [c]
  else if c < 0x800 then [0xC0 + c / 64, 0x80 + c % 64]
  else if c < 0x10000 then [0xE0 + c / 4096, 0x80 + c / 64 % 64, 0x80 + c % 64]
  else [0xF0 + c / 262144, 0x80 + c / 4096 % 64, 0x80 + c / 64 % 64, 0x80 + c % 64]

/-- The bytes of a Go string: `len(s)` is their number and `s[i]` the i-th of them. -/
def goBytes (s : String) : List Nat :=
  s.data.flatMap (fun c => utf8EncodeRune c.toNat)

/-- The conversion `string(b)` of a byte: the string of the one code point `b`. -/
def stringOfByte (b : Nat) : String :=
  String.singleton (Char.ofNat b)

/-! ## The fragment of `fmt.Sprintf` used by the naming scheme

`getStatefulsetName` calls `fmt.Sprintf` with a format computed from the
deployment name and one string operand. The model follows `doPrintf` of the Go
standard library for string operands on directives made of `%`, flags and a
verb. A directive with a width, a precision, an explicit argument index, or
one that quotes or hex-dumps its operand (`%q`, `%x`, `%X`, `%#v`), or the error
wrapping verb `%w`, is outside the modelled fragment and gives `none`.
-/

/-- The text `%!(EXTRA string=a, string=b)` that `doPrintf` appends for unused operands. -/
def extraString : List String → String
  | [] => ""
  | a :: rest =>
      "%!(EXTRA " ++ ", ".intercalate ((a :: rest).map (fun x => "string=" ++ x)) ++ ")"

/-- The output of `printArg` for a string operand under verb `verb`; `sharp` is the `#` flag. -/
def printArg (sharp : Bool) (arg : String) (verb : Char) : Option String :=
  if verb = 's' then some arg
  else if verb = 'v' then (if sharp then none else some arg)
  else if verb = 'T' then some "string"
  else if verb = 'q' ∨ verb = 'x' ∨ verb = 'X' ∨ verb = 'w' then none
  else some ("%!" ++ String.singleton verb ++ "(string=" ++ arg ++ ")")

/-- The characters that open a width, a precision or an argument index. -/
def opensWidth (c : Char) : Bool :=
  ('1' ≤ c ∧ c ≤ '9') || c = '.' || c = '*' || c = '['

/-- The format loop of `doPrintf`. The first argument is `none` while copying literal
text and `some sharp` inside a directive, after its `%` and any flags read so far. -/
def doPrintf : Option Bool → List Char → List String → Option String
  | none, [], a => some (extraString a)
  | some _, [], a => some ("%!(NOVERB)" ++ extraString a)
  | none, c :: cs, a =>
      if c = '%' then doPrintf (some false) cs a
      else (doPrintf none cs a).map (fun out => String.singleton c ++ out)
  | some sharp, c :: cs, a =>
      if c = '#' then doPrintf (some true) cs a
      else if c = '0' ∨ c = '+' ∨ c = '-' ∨ c = ' ' then doPrintf (some sharp) cs a
      else if opensWidth c then none
      else if c = '%' then (doPrintf none cs a).map (fun out => "%" ++ out)
      else
        match a with
        | [] =>
            (doPrintf none cs []).map
              (fun out => "%!" ++ String.singleton c ++ "(MISSING)" ++ out)
        | arg :: rest =>
            match printArg sharp arg c with
            | none => none
            | some txt => (doPrintf none cs rest).map (fun out => txt ++ out)

/-- The call `fmt.Sprintf(format, a...)` with string operands. -/
def Sprintf (format : String) (a : List String) : Option String :=
  doPrintf none format.data a

/-! ## `namings.go` -/

/-- The map literal `nameSuffix` of `getObjectName`. -/
def nameSuffix : GoMap :=
  [ ("ConfigMap", "-pubsubplus"),
    ("DiscoveryService", "-pubsubplus-discovery"),
    ("Role", "-pubsubplus-podtagupdater"),
    ("RoleBinding", "-pubsubplus-sa-to-podtagupdater"),
    ("ServiceAccount", "-pubsubplus-sa"),
    ("Secret", "-pubsubplus-secrets"),
    ("Service", "-pubsubplus"),
    ("StatefulSet", "-pubsubplus-%s") ]

/-- Provides the object names for the current EventBroker deployment. -/
def getObjectName (objectType : String) (deploymentName : String) : String :=
  deploymentName ++ mapIndex nameSuffix objectType

/-- Provides the name of a StatefulSet of a role specified by `roleSuffix`. -/
def getStatefulsetName (deploymentName : String) (roleSuffix : String) : Option String :=
  Sprintf (getObjectName "StatefulSet" deploymentName) [roleSuffix]

/-- Provides the labels for an object in the current EventBroker deployment. -/
def getObjectLabels (deploymentName : String) : GoMap :=
  [ ("app.kubernetes.io/instance", deploymentName),
    ("app.kubernetes.io/name", "eventbroker"),
    ("app.kubernetes.io/managed-by", "solace-pubsubplus-operator") ]

/-- The map literal of `getBrokerNodeType`. -/
def nodeTypeOfSymbol : GoMap :=
  [ ("p", "message-routing-primary"),
    ("b", "message-routing-backup"),
    ("m", "monitor") ]

/-- The node type of a StatefulSet name, from its last byte. The index expression
`statefulSetDeploymentName[len(statefulSetDeploymentName)-1]` faults on the empty
string, where the index is `-1`: that is `none`. -/
def getBrokerNodeType (statefulSetDeploymentName : String) : Option String :=
  match (goBytes statefulSetDeploymentName).getLast? with
  | none => none
  | some b =>
      let nodeTypeSymbol := stringOfByte b
      some (mapIndex nodeTypeOfSymbol nodeTypeSymbol)

/-- Provides the labels for a broker Pod in the current EventBroker deployment. -/
def getPodLabels (deploymentName : String) (nodeType : String) : GoMap :=
  [ ("app.kubernetes.io/instance", deploymentName),
    ("app.kubernetes.io/name", "eventbroker"),
    ("node-type", nodeType) ]

/-- Provides the selector (from Pods) to be used for broker services. -/
def getServiceSelector (deploymentName : String) : GoMap :=
  [ ("app.kubernetes.io/instance", deploymentName),
    ("app.kubernetes.io/name", "eventbroker"),
    ("active", "true") ]

/-- Provides the selector (from Pods) to be used for broker nodes discovery services. -/
def getDiscoveryServiceSelector (deploymentName : String) : GoMap :=
  [ ("app.kubernetes.io/instance", deploymentName),
    ("app.kubernetes.io/name", "eventbroker") ]

/-! ## Kubernetes objects and the client of `eventbroker_controller.go` -/

/-- An error returned by the API client. `Reason` is the status reason that
`errors.IsNotFound` inspects. -/
structure APIError where
  Reason : String
  Message : String
deriving DecidableEq, Repr

/-- The test `errors.IsNotFound(err)`. -/
def IsNotFound (err : APIError) : Bool :=
  err.Reason == "NotFound"

/-- The key `types.NamespacedName`. -/
structure NamespacedName where
  Namespace : String
  Name : String
deriving DecidableEq, Repr

/-- The request `ctrl.Request`. -/
structure Request where
  NamespacedName : NamespacedName
deriving DecidableEq, Repr

/-- The result `ctrl.Result`; `RequeueAfter` is a duration. The zero value is `ctrl.Result{}`. -/
structure Result where
  Requeue : Bool := false
  RequeueAfter : Nat := 0
deriving DecidableEq, Repr

/-- Modelled from the spec: the desired-state spec of the parent, declared in
`api/v1alpha1`, which is not among the sources. `Reconcile` never reads it, so it is
kept as an uninterpreted payload. -/
structure EventBrokerSpec where
  raw : String
deriving DecidableEq, Repr

/-- Modelled from the spec: the status sub-record of the parent (declared in
`api/v1alpha1`), whose one field is the ordered list of observed pod names. Its Go type
is `[]string`, the type of the value `Reconcile` assigns to it. -/
structure EventBrokerStatus where
  BrokerPods : Option (List String)
deriving DecidableEq, Repr

/-- The parent resource `eventbrokerv1alpha1.EventBroker`. -/
structure EventBroker where
  Name : String
  Namespace : String
  Spec : EventBrokerSpec
  Status : EventBrokerStatus
deriving DecidableEq, Repr

/-- The part of `corev1.Service` that the controller touches. -/
structure Service where
  Name : String
  Namespace : String
  Labels : GoMap
deriving DecidableEq, Repr

/-- The part of `corev1.ConfigMap` that the controller touches. -/
structure ConfigMap where
  Name : String
  Namespace : String
  Labels : GoMap
deriving DecidableEq, Repr

/-- The part of `appsv1.StatefulSet` that the controller touches. -/
structure StatefulSet where
  Name : String
  Namespace : String
  Labels : GoMap
deriving DecidableEq, Repr

/-- The part of `corev1.Pod` that the controller touches. -/
structure Pod where
  Name : String
  Namespace : String
  Labels : GoMap
deriving DecidableEq, Repr

/-- A child object handed to `Create`, `Update` or `Delete` (a `client.Object`). -/
inductive Object where
  | service (o : Service)
  | configMap (o : ConfigMap)
  | statefulSet (o : StatefulSet)
deriving DecidableEq, Repr

/-- The outcome of a read: the object, or the error. -/
inductive Fetched (α : Type) where
  | ok (obj : α)
  | error (err : APIError)
deriving DecidableEq, Repr

/-- The store interface `client.Client` over a store state `σ`. Every call takes the
state and returns its answer with the state it leaves, so that a client may answer
anything at any time. `Get` is split by the type of the object it fills; `ListPods` is
`List` with the options `InNamespace` and `MatchingLabels`; `StatusUpdate` is
`Status().Update`. A write returns `none` for the nil error. -/
structure Client (σ : Type) where
  GetEventBroker : σ → NamespacedName → Fetched EventBroker × σ
  GetService : σ → NamespacedName → Fetched Service × σ
  GetConfigMap : σ → NamespacedName → Fetched ConfigMap × σ
  GetStatefulSet : σ → NamespacedName → Fetched StatefulSet × σ
  ListPods : σ → String → GoMap → Fetched (List Pod) × σ
  Create : σ → Object → Option APIError × σ
  Update : σ → Object → Option APIError × σ
  Delete : σ → Object → Option APIError × σ
  StatusUpdate : σ → EventBroker → Option APIError × σ

/-- The resource builders, methods of the reconciler that are not among the sources:
they are parameters of `Reconcile`. -/
structure Builders where
  serviceForEventBroker : EventBroker → Service
  configmapForEventBroker : EventBroker → ConfigMap
  statefulsetForEventBroker : EventBroker → String → StatefulSet

/-- The built-in `append(s, x)` on a `[]string`. -/
def goAppend (s : Option (List String)) (x : String) : Option (List String) :=
  match s with
  | none => some [x]
  | some l => some (l ++ [x])

/-- The comparison `reflect.DeepEqual` on two `[]string`: both nil, or both not nil with
the same elements in the same order. -/
def DeepEqual : Option (List String) → Option (List String) → Bool
  | none, none => true
  | some x, some y => x == y
  | _, _ => false

/-- The labels for selecting the resources belonging to the given eventbroker CR name. -/
def baseLabels (name : String) : GoMap :=
  [ ("app.kubernetes.io/instance", name),
    ("app.kubernetes.io/name", "eventbroker") ]

/-- The pod names of the array of pods passed in: `podNames` starts as the nil slice and
grows by one `append` per pod. -/
def getPodNames (pods : List Pod) : Option (List String) :=
  pods.foldl (fun podNames pod => goAppend podNames pod.Name) none

/-- One pass of the reconciliation loop. The pair returned is `(ctrl.Result, error)`, with
`none` for the nil error; log lines are dropped. -/
def Reconcile {σ : Type} (r : Client σ) (b : Builders) (req : Request) (st : σ) :
    (Result × Option APIError) × σ :=
  -- Fetch the EventBroker instance
  match r.GetEventBroker st req.NamespacedName with
  | (Fetched.error err, st) =>
      if IsNotFound err then (({}, none), st) else (({}, some err), st)
  | (Fetched.ok eventbroker, st) =>
  -- Check if the Service already exists, if not create a new one
  match r.GetService st { Name := eventbroker.Name ++ "-pubsubplus", Namespace := eventbroker.Namespace } with
  | (Fetched.error err, st) =>
      if IsNotFound err then
        let svc := b.serviceForEventBroker eventbroker
        match r.Create st (Object.service svc) with
        | (some err, st) => (({}, some err), st)
        | (none, st) => (({ Requeue := true }, none), st)
      else (({}, some err), st)
  | (Fetched.ok _, st) =>
  -- Check if the ConfigMap already exists, if not create a new one
  match r.GetConfigMap st { Name := eventbroker.Name ++ "-pubsubplus", Namespace := eventbroker.Namespace } with
  | (Fetched.error err, st) =>
      if IsNotFound err then
        let cm := b.configmapForEventBroker eventbroker
        match r.Create st (Object.configMap cm) with
        | (some err, st) => (({}, some err), st)
        | (none, st) => (({ Requeue := true }, none), st)
      else (({}, some err), st)
  | (Fetched.ok _, st) =>
  -- Check if the StatefulSet already exists, if not create a new one
  match r.GetStatefulSet st { Name := eventbroker.Name ++ "-pubsubplus-p", Namespace := eventbroker.Namespace } with
  | (Fetched.error err, st) =>
      if IsNotFound err then
        let sts := b.statefulsetForEventBroker eventbroker "-p"
        match r.Create st (Object.statefulSet sts) with
        | (some err, st) => (({}, some err), st)
        | (none, st) => (({ Requeue := true }, none), st)
      else (({}, some err), st)
  | (Fetched.ok _, st) =>
  -- Update the EventBroker status with the pod names
  match r.ListPods st eventbroker.Namespace (baseLabels eventbroker.Name) with
  | (Fetched.error err, st) => (({}, some err), st)
  | (Fetched.ok items, st) =>
  let podNames := getPodNames items
  if ¬ DeepEqual podNames eventbroker.Status.BrokerPods then
    let eventbroker := { eventbroker with Status := { eventbroker.Status with BrokerPods := podNames } }
    match r.StatusUpdate st eventbroker with
    | (some err, st) => (({}, some err), st)
    | (none, st) => (({}, none), st)
  else (({}, none), st)

/-! ## Observing the store calls of a pass -/

/-- One store call with its arguments and its answer. -/
inductive Event where
  | getEventBroker (key : NamespacedName) (res : Fetched EventBroker)
  | getService (key : NamespacedName) (res : Fetched Service)
  | getConfigMap (key : NamespacedName) (res : Fetched ConfigMap)
  | getStatefulSet (key : NamespacedName) (res : Fetched StatefulSet)
  | listPods (ns : String) (labels : GoMap) (res : Fetched (List Pod))
  | create (obj : Object) (res : Option APIError)
  | update (obj : Object) (res : Option APIError)
  | delete (obj : Object) (res : Option APIError)
  | statusUpdate (eb : EventBroker) (res : Option APIError)
deriving DecidableEq, Repr

/-- The error of a read, if it failed. -/
def Fetched.err? {α : Type} : Fetched α → Option APIError
  | Fetched.ok _ => none
  | Fetched.error e => some e

/-- The error a store call answered with, if it failed. -/
def Event.err? : Event → Option APIError
  | Event.getEventBroker _ res => res.err?
  | Event.getService _ res => res.err?
  | Event.getConfigMap _ res => res.err?
  | Event.getStatefulSet _ res => res.err?
  | Event.listPods _ _ res => res.err?
  | Event.create _ res => res
  | Event.update _ res => res
  | Event.delete _ res => res
  | Event.statusUpdate _ res => res

/-- A get of one object: the existence checks and the fetch of the parent. -/
def Event.isGet : Event → Bool
  | Event.getEventBroker _ _ => true
  | Event.getService _ _ => true
  | Event.getConfigMap _ _ => true
  | Event.getStatefulSet _ _ => true
  | _ => false

/-- A get of a child object: one of the three existence checks. -/
def Event.isChildGet : Event → Bool
  | Event.getService _ _ => true
  | Event.getConfigMap _ _ => true
  | Event.getStatefulSet _ _ => true
  | _ => false

/-- A create call. -/
def Event.isCreate : Event → Bool
  | Event.create _ _ => true
  | _ => false

/-- A status write. -/
def Event.isStatusUpdate : Event → Bool
  | Event.statusUpdate _ _ => true
  | _ => false

/-- A pod listing. -/
def Event.isListPods : Event → Bool
  | Event.listPods _ _ _ => true
  | _ => false

/-- An update or a delete of a child object. -/
def Event.isUpdateOrDelete : Event → Bool
  | Event.update _ _ => true
  | Event.delete _ _ => true
  | _ => false

/-- A call that changes the store: create, update, delete or status write. -/
def Event.isMutating : Event → Bool
  | Event.create _ _ => true
  | Event.update _ _ => true
  | Event.delete _ _ => true
  | Event.statusUpdate _ _ => true
  | _ => false

/-- The client `c` with every call appended, with its answer, to a log kept beside the
store state. -/
def traced {σ : Type} (c : Client σ) : Client (σ × List Event) where
  GetEventBroker := fun st key =>
    ((c.GetEventBroker st.1 key).1,
      ((c.GetEventBroker st.1 key).2,
        st.2 ++ [Event.getEventBroker key (c.GetEventBroker st.1 key).1]))
  GetService := fun st key =>
    ((c.GetService st.1 key).1,
      ((c.GetService st.1 key).2, st.2 ++ [Event.getService key (c.GetService st.1 key).1]))
  GetConfigMap := fun st key =>
    ((c.GetConfigMap st.1 key).1,
      ((c.GetConfigMap st.1 key).2, st.2 ++ [Event.getConfigMap key (c.GetConfigMap st.1 key).1]))
  GetStatefulSet := fun st key =>
    ((c.GetStatefulSet st.1 key).1,
      ((c.GetStatefulSet st.1 key).2,
        st.2 ++ [Event.getStatefulSet key (c.GetStatefulSet st.1 key).1]))
  ListPods := fun st ns labels =>
    ((c.ListPods st.1 ns labels).1,
      ((c.ListPods st.1 ns labels).2,
        st.2 ++ [Event.listPods ns labels (c.ListPods st.1 ns labels).1]))
  Create := fun st obj =>
    ((c.Create st.1 obj).1, ((c.Create st.1 obj).2, st.2 ++ [Event.create obj (c.Create st.1 obj).1]))
  Update := fun st obj =>
    ((c.Update st.1 obj).1, ((c.Update st.1 obj).2, st.2 ++ [Event.update obj (c.Update st.1 obj).1]))
  Delete := fun st obj =>
    ((c.Delete st.1 obj).1, ((c.Delete st.1 obj).2, st.2 ++ [Event.delete obj (c.Delete st.1 obj).1]))
  StatusUpdate := fun st eb =>
    ((c.StatusUpdate st.1 eb).1,
      ((c.StatusUpdate st.1 eb).2, st.2 ++ [Event.statusUpdate eb (c.StatusUpdate st.1 eb).1]))

/-- What one pass of `Reconcile` returned, the store it left and the calls it made, in order. -/
structure Pass (σ : Type) where
  result : Result
  err : Option APIError
  store : σ
  trace : List Event

/-- One pass of `Reconcile` against the client `c` from the store state `st`, observed. -/
def runPass {σ : Type} (c : Client σ) (b : Builders) (req : Request) (st : σ) : Pass σ :=
  let out := Reconcile (traced c) b req (st, [])
  { result := out.1.1, err := out.1.2, store := out.2.1, trace := out.2.2 }

/-! ## An in-memory store -/

/-- Modelled from the spec: the cluster-object store behind the object-store adapter
(section 6), which is the Kubernetes API and not code of this repository. Objects are
identified by namespace and name within their kind. -/
structure Cluster where
  eventbrokers : List EventBroker
  services : List Service
  configmaps : List ConfigMap
  statefulsets : List StatefulSet
  pods : List Pod
deriving DecidableEq, Repr

/-- The not-found answer of the store. -/
def notFound (key : NamespacedName) : APIError :=
  { Reason := "NotFound", Message := key.Name }

/-- The answer of the store to a create of an object that exists. -/
def alreadyExists (name : String) : APIError :=
  { Reason := "AlreadyExists", Message := name }

/-- The answer of a get from what the lookup found. -/
def fetchedOf {α : Type} (key : NamespacedName) : Option α → Fetched α
  | some o => Fetched.ok o
  | none => Fetched.error (notFound key)

/-- A label selector matches a label set that has each of its pairs. -/
def matchesLabels (selector : GoMap) (labels : GoMap) : Bool :=
  selector.all (fun kv => mapLookup labels kv.1 == some kv.2)

/-- Create in the in-memory store: refused when the name is taken, added otherwise. -/
def Cluster.create (cl : Cluster) : Object → Option APIError × Cluster
  | Object.service o =>
      if cl.services.any (fun x => x.Namespace == o.Namespace && x.Name == o.Name) then
        (some (alreadyExists o.Name), cl)
      else (none, { cl with services := cl.services ++ [o] })
  | Object.configMap o =>
      if cl.configmaps.any (fun x => x.Namespace == o.Namespace && x.Name == o.Name) then
        (some (alreadyExists o.Name), cl)
      else (none, { cl with configmaps := cl.configmaps ++ [o] })
  | Object.statefulSet o =>
      if cl.statefulsets.any (fun x => x.Namespace == o.Namespace && x.Name == o.Name) then
        (some (alreadyExists o.Name), cl)
      else (none, { cl with statefulsets := cl.statefulsets ++ [o] })

/-- Update in the in-memory store: the stored object of that name is replaced. -/
def Cluster.update (cl : Cluster) : Object → Option APIError × Cluster
  | Object.service o =>
      if cl.services.any (fun x => x.Namespace == o.Namespace && x.Name == o.Name) then
        (none, { cl with services := cl.services.map (fun x =>
          if x.Namespace == o.Namespace && x.Name == o.Name then o else x) })
      else (some (notFound ⟨o.Namespace, o.Name⟩), cl)
  | Object.configMap o =>
      if cl.configmaps.any (fun x => x.Namespace == o.Namespace && x.Name == o.Name) then
        (none, { cl with configmaps := cl.configmaps.map (fun x =>
          if x.Namespace == o.Namespace && x.Name == o.Name then o else x) })
      else (some (notFound ⟨o.Namespace, o.Name⟩), cl)
  | Object.statefulSet o =>
      if cl.statefulsets.any (fun x => x.Namespace == o.Namespace && x.Name == o.Name) then
        (none, { cl with statefulsets := cl.statefulsets.map (fun x =>
          if x.Namespace == o.Namespace && x.Name == o.Name then o else x) })
      else (some (notFound ⟨o.Namespace, o.Name⟩), cl)

/-- Delete in the in-memory store: the stored object of that name is removed. -/
def Cluster.delete (cl : Cluster) : Object → Option APIError × Cluster
  | Object.service o =>
      if cl.services.any (fun x => x.Namespace == o.Namespace && x.Name == o.Name) then
        (none, { cl with services := cl.services.filter (fun x =>
          !(x.Namespace == o.Namespace && x.Name == o.Name)) })
      else (some (notFound ⟨o.Namespace, o.Name⟩), cl)
  | Object.configMap o =>
      if cl.configmaps.any (fun x => x.Namespace == o.Namespace && x.Name == o.Name) then
        (none, { cl with configmaps := cl.configmaps.filter (fun x =>
          !(x.Namespace == o.Namespace && x.Name == o.Name)) })
      else (some (notFound ⟨o.Namespace, o.Name⟩), cl)
  | Object.statefulSet o =>
      if cl.statefulsets.any (fun x => x.Namespace == o.Namespace && x.Name == o.Name) then
        (none, { cl with statefulsets := cl.statefulsets.filter (fun x =>
          !(x.Namespace == o.Namespace && x.Name == o.Name)) })
      else (some (notFound ⟨o.Namespace, o.Name⟩), cl)

/-- Status write in the in-memory store: the status of the stored parent of that name is
replaced and nothing else of it. -/
def Cluster.statusUpdate (cl : Cluster) (eb : EventBroker) : Option APIError × Cluster :=
  if cl.eventbrokers.any (fun x => x.Namespace == eb.Namespace && x.Name == eb.Name) then
    (none, { cl with eventbrokers := cl.eventbrokers.map (fun x =>
      if x.Namespace == eb.Namespace && x.Name == eb.Name then { x with Status := eb.Status }
      else x) })
  else (some (notFound ⟨eb.Namespace, eb.Name⟩), cl)

/-- The client of the in-memory store. Reads leave the store as it is. -/
def clusterClient : Client Cluster where
  GetEventBroker := fun cl key =>
    (fetchedOf key (cl.eventbrokers.find? (fun x =>
      x.Namespace == key.Namespace && x.Name == key.Name)), cl)
  GetService := fun cl key =>
    (fetchedOf key (cl.services.find? (fun x =>
      x.Namespace == key.Namespace && x.Name == key.Name)), cl)
  GetConfigMap := fun cl key =>
    (fetchedOf key (cl.configmaps.find? (fun x =>
      x.Namespace == key.Namespace && x.Name == key.Name)), cl)
  GetStatefulSet := fun cl key =>
    (fetchedOf key (cl.statefulsets.find? (fun x =>
      x.Namespace == key.Namespace && x.Name == key.Name)), cl)
  ListPods := fun cl ns labels =>
    (Fetched.ok (cl.pods.filter (fun p => p.Namespace == ns && matchesLabels labels p.Labels)), cl)
  Create := Cluster.create
  Update := Cluster.update
  Delete := Cluster.delete
  StatusUpdate := Cluster.statusUpdate

/-- A client of a store that is down: every call fails with `err`. -/
def failingClient (err : APIError) : Client Unit where
  GetEventBroker := fun st _ => (Fetched.error err, st)
  GetService := fun st _ => (Fetched.error err, st)
  GetConfigMap := fun st _ => (Fetched.error err, st)
  GetStatefulSet := fun st _ => (Fetched.error err, st)
  ListPods := fun st _ _ => (Fetched.error err, st)
  Create := fun st _ => (some err, st)
  Update := fun st _ => (some err, st)
  Delete := fun st _ => (some err, st)
  StatusUpdate := fun st _ => (some err, st)

/-- Modelled from the spec: resource builders that follow the contract of section 4.3,
naming their objects through the Naming Resolver (the StatefulSet with the role suffix
they are given) and labelling them with the object labels. The builders themselves are
not among the sources. Where the format is outside the modelled fragment of `Sprintf`
the name is left empty. -/
def resolverBuilders : Builders where
  serviceForEventBroker := fun eb =>
    { Name := getObjectName "Service" eb.Name, Namespace := eb.Namespace,
      Labels := getObjectLabels eb.Name }
  configmapForEventBroker := fun eb =>
    { Name := getObjectName "ConfigMap" eb.Name, Namespace := eb.Namespace,
      Labels := getObjectLabels eb.Name }
  statefulsetForEventBroker := fun eb roleSuffix =>
    { Name := (getStatefulsetName eb.Name roleSuffix).getD "", Namespace := eb.Namespace,
      Labels := getObjectLabels eb.Name }

/-- The parent `name` in namespace `default`, with the given stored pod names. -/
def parentNamed (name : String) (brokerPods : Option (List String)) : EventBroker :=
  { Name := name, Namespace := "default", Spec := { raw := "" },
    Status := { BrokerPods := brokerPods } }

/-- A store that holds one parent and nothing else. -/
def parentOnly (eb : EventBroker) : Cluster :=
  { eventbrokers := [eb], services := [], configmaps := [], statefulsets := [], pods := [] }

/-- The request for the parent `name` in namespace `default`. -/
def requestFor (name : String) : Request :=
  { NamespacedName := { Namespace := "default", Name := name } }

/-- A broker pod of deployment `deployment` in namespace `default`. -/
def brokerPod (deployment : String) (name : String) (nodeType : String) : Pod :=
  { Name := name, Namespace := "default", Labels := getPodLabels deployment nodeType }

/-- A store in steady state: the parent, its three children under their canonical names,
and the given pods. -/
def steadyCluster (eb : EventBroker) (pods : List Pod) : Cluster :=
  { eventbrokers := [eb],
    services := [resolverBuilders.serviceForEventBroker eb],
    configmaps := [resolverBuilders.configmapForEventBroker eb],
    statefulsets := [resolverBuilders.statefulsetForEventBroker eb "p"],
    pods := pods }

/-- The store after `k` passes of `Reconcile` for `req` in succession, nothing else
touching it in between. -/
def storeAfter (b : Builders) (req : Request) : Nat → Cluster → Cluster
  | 0, cl => cl
  | k + 1, cl => storeAfter b req k (runPass clusterClient b req cl).store

/-- Resource builders that name the Service and the ConfigMap through the Naming Resolver
and the StatefulSet by appending the suffix they are given to the name of the parent and
`-pubsubplus`, so that the suffix `-p` gives the name of the existence check of
`Reconcile`. An instance for the statements about builders, which are not among the
sources. -/
def appendingBuilders : Builders where
  serviceForEventBroker := fun eb =>
    { Name := getObjectName "Service" eb.Name, Namespace := eb.Namespace,
      Labels := getObjectLabels eb.Name }
  configmapForEventBroker := fun eb =>
    { Name := getObjectName "ConfigMap" eb.Name, Namespace := eb.Namespace,
      Labels := getObjectLabels eb.Name }
  statefulsetForEventBroker := fun eb suffix =>
    { Name := eb.Name ++ "-pubsubplus" ++ suffix, Namespace := eb.Namespace,
      Labels := getObjectLabels eb.Name }

/-- The in-memory store with a listing order: the listing returns `order` of the matching
pods, so the same pods are listed the same way every time. With `order` the identity this
is `clusterClient`. -/
def orderedClient (order : List Pod → List Pod) : Client Cluster :=
  { clusterClient with
    ListPods := fun cl ns labels =>
      (Fetched.ok (order (cl.pods.filter (fun p =>
        p.Namespace == ns && matchesLabels labels p.Labels))), cl) }

/-- The in-memory store with an unstable listing order: every call answers as
`clusterClient` does, but each listing returns the matching pods in the reverse order of
the one before. The flag beside the store tells whether the next listing is reversed. -/
def alternatingClient : Client (Cluster × Bool) where
  GetEventBroker := fun st key => ((clusterClient.GetEventBroker st.1 key).1, st)
  GetService := fun st key => ((clusterClient.GetService st.1 key).1, st)
  GetConfigMap := fun st key => ((clusterClient.GetConfigMap st.1 key).1, st)
  GetStatefulSet := fun st key => ((clusterClient.GetStatefulSet st.1 key).1, st)
  ListPods := fun st ns labels =>
    (Fetched.ok (if st.2 then
        (st.1.pods.filter (fun p => p.Namespace == ns && matchesLabels labels p.Labels)).reverse
      else st.1.pods.filter (fun p => p.Namespace == ns && matchesLabels labels p.Labels)),
      (st.1, !st.2))
  Create := fun st obj => ((Cluster.create st.1 obj).1, ((Cluster.create st.1 obj).2, st.2))
  Update := fun st obj => ((Cluster.update st.1 obj).1, ((Cluster.update st.1 obj).2, st.2))
  Delete := fun st obj => ((Cluster.delete st.1 obj).1, ((Cluster.delete st.1 obj).2, st.2))
  StatusUpdate := fun st eb =>
    ((Cluster.statusUpdate st.1 eb).1, ((Cluster.statusUpdate st.1 eb).2, st.2))

/-- A store that answers reads repeatably and keeps what it holds: a get or a listing
leaves the store as it is, so it returns the same answer, in the same order, until
something is written; and a status write that succeeds changes nothing but the status of
the parent written, which the next fetch of that parent returns. -/
def StableStore {σ : Type} (c : Client σ) : Prop :=
  (∀ s k, (c.GetEventBroker s k).2 = s)
  ∧ (∀ s k, (c.GetService s k).2 = s)
  ∧ (∀ s k, (c.GetConfigMap s k).2 = s)
  ∧ (∀ s k, (c.GetStatefulSet s k).2 = s)
  ∧ (∀ s ns labels, (c.ListPods s ns labels).2 = s)
  ∧ (∀ s eb, (c.StatusUpdate s eb).1 = none →
      (∀ k, (c.GetService (c.StatusUpdate s eb).2 k).1 = (c.GetService s k).1)
      ∧ (∀ k, (c.GetConfigMap (c.StatusUpdate s eb).2 k).1 = (c.GetConfigMap s k).1)
      ∧ (∀ k, (c.GetStatefulSet (c.StatusUpdate s eb).2 k).1 = (c.GetStatefulSet s k).1)
      ∧ (∀ ns labels,
          (c.ListPods (c.StatusUpdate s eb).2 ns labels).1 = (c.ListPods s ns labels).1)
      ∧ (∀ k e0, (c.GetEventBroker s k).1 = Fetched.ok e0 →
          e0.Name = eb.Name → e0.Namespace = eb.Namespace →
          (c.GetEventBroker (c.StatusUpdate s eb).2 k).1
            = Fetched.ok { e0 with Status := eb.Status }))

end PubSubPlus

namespace PubSubPlus

/-! ## Theorems -/

/-- Literal text of a format is copied to the output: a format that starts with
characters other than `%` prints them and goes on with the rest. -/
theorem doPrintf_literal (l rest : List Char) (a : List String) (h : '%' ∉ l) :
    doPrintf none (l ++ rest) a = (doPrintf none rest a).map (fun out => String.mk l ++ out) := by
  induction l with
  | nil =>
      cases hr : doPrintf none rest a with
      | none => simp [hr]
      | some out => simp [hr, String.ext_iff]
  | cons c cs ih =>
      have hc : c ≠ '%' := fun e => h (by simp [e])
      have hcs : '%' ∉ cs := fun e => h (by simp [e])
      have step : doPrintf none (c :: (cs ++ rest)) a
          = (doPrintf none (cs ++ rest) a).map (fun out => String.singleton c ++ out) := by
        simp only [doPrintf, if_neg hc]
      rw [List.cons_append, step, ih hcs]
      cases doPrintf none rest a with
      | none => rfl
      | some out => simp [String.ext_iff, String.singleton]

/-- The StatefulSet template of a deployment name. -/
theorem getObjectName_statefulSet (n : String) :
    getObjectName "StatefulSet" n = n ++ "-pubsubplus-%s" := by
  simp [getObjectName, mapIndex, nameSuffix, mapLookup]

/-- C1, as the code has it: for every deployment name `n` without a `%` character and
every role suffix `r` (so for `p`, `b` and `m`), `getStatefulsetName n r` returns
`n ++ "-pubsubplus-" ++ r`, which is the template `getObjectName "StatefulSet" n`, that is
`n ++ "-pubsubplus-%s"`, with its `%s` replaced by `r`. -/
theorem getStatefulsetName_eq (n r : String) (h : '%' ∉ n.data) :
    getStatefulsetName n r = some (n ++ "-pubsubplus-" ++ r)
    ∧ getObjectName "StatefulSet" n = n ++ "-pubsubplus-" ++ "%s" := by
  refine ⟨?_, by simp [getObjectName_statefulSet, String.ext_iff]⟩
  unfold getStatefulsetName Sprintf
  rw [getObjectName_statefulSet, String.data_append, doPrintf_literal _ _ _ h]
  simp [doPrintf, opensWidth, printArg, extraString, String.ext_iff, String.singleton]

/-- C1 at the deployment name `sample` and the role suffix `p`. -/
theorem getStatefulsetName_eq_witness :
    getStatefulsetName "sample" "p" = some ("sample" ++ "-pubsubplus-" ++ "p")
    ∧ getObjectName "StatefulSet" "sample" = "sample" ++ "-pubsubplus-" ++ "%s" :=
  getStatefulsetName_eq "sample" "p" (by decide)

/-- C1 as stated fails for a deployment name with a `%`: the name is part of the format,
so for the name `%s` the operand lands in the place of the name and the template's own
`%s` finds no operand left. -/
theorem getStatefulsetName_percent_counterexample :
    getStatefulsetName "%s" "p" = some "p-pubsubplus-%!s(MISSING)"
    ∧ getStatefulsetName "%s" "p" ≠ some ("%s" ++ "-pubsubplus-" ++ "p") := by
  decide

/-- C2: for every deployment name and each of the eight known kinds, `getObjectName`
returns the name followed by the fixed suffix of the kind. -/
theorem getObjectName_known (n : String) :
    getObjectName "ConfigMap" n = n ++ "-pubsubplus"
    ∧ getObjectName "DiscoveryService" n = n ++ "-pubsubplus-discovery"
    ∧ getObjectName "Role" n = n ++ "-pubsubplus-podtagupdater"
    ∧ getObjectName "RoleBinding" n = n ++ "-pubsubplus-sa-to-podtagupdater"
    ∧ getObjectName "ServiceAccount" n = n ++ "-pubsubplus-sa"
    ∧ getObjectName "Secret" n = n ++ "-pubsubplus-secrets"
    ∧ getObjectName "Service" n = n ++ "-pubsubplus"
    ∧ getObjectName "StatefulSet" n = n ++ "-pubsubplus-%s" := by
  simp [getObjectName, mapIndex, nameSuffix, mapLookup]

/-- The last byte of a non-empty string is the last byte of the encoding of its last
character. -/
theorem goBytes_getLast (s : String) (c : Char) (h : s.data.getLast? = some c) :
    (goBytes s).getLast? = (utf8EncodeRune c.toNat).getLast? := by
  obtain ⟨init, hs⟩ : ∃ init, s.data = init ++ [c] := by
    rcases List.eq_nil_or_concat s.data with hnil | ⟨init, x, hx⟩
    · simp [hnil] at h
    · refine ⟨init, ?_⟩
      rw [hx] at h ⊢
      simp at h
      simp [h]
  have hne : utf8EncodeRune c.toNat ≠ [] := by
    unfold utf8EncodeRune
    split_ifs <;> simp
  simp only [goBytes, hs, List.flatMap_append, List.flatMap_cons, List.flatMap_nil,
    List.append_nil]
  rw [List.getLast?_append_of_ne_nil _ hne]

/-- A byte from `0x80` to `0xBF`, as a string, is none of the three role symbols. -/
theorem stringOfByte_continuation (k : Nat) (hk : k < 64) :
    mapIndex nodeTypeOfSymbol (stringOfByte (0x80 + k)) = "" := by
  revert k
  decide

/-- C3: for every non-empty StatefulSet name, with last character `c`, `getBrokerNodeType`
returns the primary, backup or monitor node type when `c` is `p`, `b` or `m`, and the empty
string for any other `c`, a non-ASCII one included. -/
theorem getBrokerNodeType_lastChar (s : String) (c : Char) (h : s.data.getLast? = some c) :
    getBrokerNodeType s =
      some (if c = 'p' then "message-routing-primary"
        else if c = 'b' then "message-routing-backup"
        else if c = 'm' then "monitor"
        else "") := by
  unfold getBrokerNodeType
  rw [goBytes_getLast s c h]
  by_cases hascii : c.toNat < 0x80
  · have hb : (utf8EncodeRune c.toNat).getLast? = some c.toNat := by
      simp [utf8EncodeRune, hascii]
    have hc : stringOfByte c.toNat = String.singleton c := by
      simp [stringOfByte, Char.ofNat_toNat]
    simp only [hb, hc]
    have e : ∀ d : Char, (String.singleton c = String.singleton d) ↔ c = d := by
      intro d
      simp [String.ext_iff, String.singleton]
    have ep : ("p" : String) = String.singleton 'p' := rfl
    have eb : ("b" : String) = String.singleton 'b' := rfl
    have em : ("m" : String) = String.singleton 'm' := rfl
    simp only [mapIndex, nodeTypeOfSymbol, mapLookup, ep, eb, em, e, eq_comm]
    split_ifs <;> simp_all
  · have hp : c ≠ 'p' := fun e => hascii (by rw [e]; decide)
    have hbk : c ≠ 'b' := fun e => hascii (by rw [e]; decide)
    have hm : c ≠ 'm' := fun e => hascii (by rw [e]; decide)
    obtain ⟨k, hk, hb⟩ : ∃ k, k < 64 ∧ (utf8EncodeRune c.toNat).getLast? = some (0x80 + k) := by
      refine ⟨c.toNat % 64, Nat.mod_lt _ (by decide), ?_⟩
      unfold utf8EncodeRune
      split_ifs <;> simp
    simp only [hb, stringOfByte_continuation k hk, if_neg hp, if_neg hbk, if_neg hm]

/-- C3 at the name of a primary StatefulSet. -/
theorem getBrokerNodeType_lastChar_witness :
    getBrokerNodeType "sample-pubsubplus-p" =
      some (if 'p' = 'p' then "message-routing-primary"
        else if 'p' = 'b' then "message-routing-backup"
        else if 'p' = 'm' then "monitor"
        else "") :=
  getBrokerNodeType_lastChar "sample-pubsubplus-p" 'p' (by decide)

/-- C10: the four label sets all carry the instance and the component name; the object
labels have `managed-by` as their one further key, the pod labels `node-type`, the service
selector `active`, the discovery selector none; `active` is no key of the object labels. -/
theorem label_sets_layered (n t : String) :
    (mapLookup (getObjectLabels n) "app.kubernetes.io/instance" = some n
      ∧ mapLookup (getObjectLabels n) "app.kubernetes.io/name" = some "eventbroker"
      ∧ mapLookup (getObjectLabels n) "app.kubernetes.io/managed-by"
          = some "solace-pubsubplus-operator"
      ∧ ∀ k, k ∈ mapKeys (getObjectLabels n) ↔
          k ∈ ["app.kubernetes.io/instance", "app.kubernetes.io/name",
            "app.kubernetes.io/managed-by"])
    ∧ (mapLookup (getPodLabels n t) "app.kubernetes.io/instance" = some n
      ∧ mapLookup (getPodLabels n t) "app.kubernetes.io/name" = some "eventbroker"
      ∧ mapLookup (getPodLabels n t) "node-type" = some t
      ∧ ∀ k, k ∈ mapKeys (getPodLabels n t) ↔
          k ∈ ["app.kubernetes.io/instance", "app.kubernetes.io/name", "node-type"])
    ∧ (mapLookup (getServiceSelector n) "app.kubernetes.io/instance" = some n
      ∧ mapLookup (getServiceSelector n) "app.kubernetes.io/name" = some "eventbroker"
      ∧ mapLookup (getServiceSelector n) "active" = some "true"
      ∧ ∀ k, k ∈ mapKeys (getServiceSelector n) ↔
          k ∈ ["app.kubernetes.io/instance", "app.kubernetes.io/name", "active"])
    ∧ (mapLookup (getDiscoveryServiceSelector n) "app.kubernetes.io/instance" = some n
      ∧ mapLookup (getDiscoveryServiceSelector n) "app.kubernetes.io/name" = some "eventbroker"
      ∧ ∀ k, k ∈ mapKeys (getDiscoveryServiceSelector n) ↔
          k ∈ ["app.kubernetes.io/instance", "app.kubernetes.io/name"])
    ∧ "active" ∉ mapKeys (getObjectLabels n)
    ∧ mapLookup (getObjectLabels n) "active" = none := by
  simp [getObjectLabels, getPodLabels, getServiceSelector, getDiscoveryServiceSelector,
    mapLookup, mapKeys]

/-! ## The reconcile pass against an arbitrary store -/

/-- The names collected from a list of pods: the nil slice when there is no pod, the names
in listing order otherwise. -/
theorem getPodNames_eq (pods : List Pod) :
    getPodNames pods = if pods = [] then none else some (pods.map Pod.Name) := by
  have gen : ∀ (l : List Pod) (acc : List String),
      l.foldl (fun podNames pod => goAppend podNames pod.Name) (some acc)
        = some (acc ++ l.map Pod.Name) := by
    intro l
    induction l with
    | nil => intro acc; simp
    | cons p ps ih =>
        intro acc
        rw [List.foldl_cons, show goAppend (some acc) p.Name = some (acc ++ [p.Name]) from rfl,
          ih]
        simp
  cases pods with
  | nil => rfl
  | cons p ps =>
      rw [getPodNames, List.foldl_cons, show goAppend none p.Name = some ([] ++ [p.Name]) from rfl,
        gen]
      simp

/-- `DeepEqual` holds exactly of equal slices. -/
theorem DeepEqual_iff (a b : Option (List String)) : DeepEqual a b = true ↔ a = b := by
  cases a <;> cases b <;> simp [DeepEqual]

/-- C7: when the fetch of the parent fails, the pass makes no other store call and leaves
the store as the fetch left it; it returns the empty result, with no error when the
failure is NotFound and with the error of the fetch otherwise. -/
theorem parent_fetch_failure {σ : Type} (c : Client σ) (b : Builders) (req : Request)
    (st st' : σ) (e : APIError)
    (h : c.GetEventBroker st req.NamespacedName = (Fetched.error e, st')) :
    (runPass c b req st).trace = [Event.getEventBroker req.NamespacedName (Fetched.error e)]
    ∧ (runPass c b req st).store = st'
    ∧ (runPass c b req st).result = { Requeue := false, RequeueAfter := 0 }
    ∧ (runPass c b req st).err = (if IsNotFound e then none else some e) := by
  simp only [runPass, Reconcile, traced, h]
  split <;> simp_all

/-- C8: whatever the store answers, a pass makes at most one mutating call; a create that
succeeds is its last call and the pass returns requeue with no error; a pod listing or a
status write occurs only in a pass that began by finding the parent, the Service, the
ConfigMap and the StatefulSet, and such a pass creates nothing; no pass updates or deletes
a child object. -/
theorem single_step_per_pass {σ : Type} (c : Client σ) (b : Builders) (req : Request)
    (st : σ) :
    ((runPass c b req st).trace.filter Event.isMutating).length ≤ 1
    ∧ (∀ obj, Event.create obj none ∈ (runPass c b req st).trace →
        (runPass c b req st).trace.getLast? = some (Event.create obj none)
        ∧ (runPass c b req st).result = { Requeue := true, RequeueAfter := 0 }
        ∧ (runPass c b req st).err = none)
    ∧ (∀ ev ∈ (runPass c b req st).trace, ev.isListPods = true ∨ ev.isStatusUpdate = true →
        (∃ k1 eb k2 svc k3 cm k4 sts, (runPass c b req st).trace.take 4 =
          [Event.getEventBroker k1 (Fetched.ok eb), Event.getService k2 (Fetched.ok svc),
            Event.getConfigMap k3 (Fetched.ok cm), Event.getStatefulSet k4 (Fetched.ok sts)])
        ∧ ∀ ev2 ∈ (runPass c b req st).trace, ev2.isCreate = false)
    ∧ (∀ ev ∈ (runPass c b req st).trace, ev.isUpdateOrDelete = false) := by
  simp only [runPass, Reconcile, traced]
  repeat' split
  all_goals
    simp only [Prod.mk.injEq] at *
    (try casesm* _ ∧ _)
    subst_vars
    simp_all [Event.isMutating, Event.isListPods, Event.isStatusUpdate, Event.isCreate,
      Event.isUpdateOrDelete]

/-- C9: a store call that fails, other than a get that answers NotFound, is the last call
of the pass, and the pass returns the empty result with exactly that error. -/
theorem store_failure_returned {σ : Type} (c : Client σ) (b : Builders) (req : Request)
    (st : σ) (ev : Event) (e : APIError)
    (hev : ev ∈ (runPass c b req st).trace) (herr : ev.err? = some e)
    (hexp : ¬ (ev.isGet = true ∧ IsNotFound e = true)) :
    (runPass c b req st).trace.getLast? = some ev
    ∧ (runPass c b req st).result = { Requeue := false, RequeueAfter := 0 }
    ∧ (runPass c b req st).err = some e := by
  revert hev
  simp only [runPass, Reconcile, traced]
  repeat' split
  all_goals
    simp only [Prod.mk.injEq] at *
    (try casesm* _ ∧ _)
    subst_vars
    intro hev
    simp only [List.nil_append, List.cons_append, List.mem_cons, List.mem_singleton,
      List.not_mem_nil, or_false] at hev
    (try casesm* _ ∨ _)
    all_goals
      subst_vars
      simp_all [Event.err?, Fetched.err?, Event.isGet]

/-- C7 at a store that does not hold the requested parent: the fetch answers NotFound. -/
theorem parent_fetch_failure_witness :
    (runPass clusterClient resolverBuilders (requestFor "sample")
        (parentOnly (parentNamed "other" none))).trace
      = [Event.getEventBroker (requestFor "sample").NamespacedName
          (Fetched.error (notFound (requestFor "sample").NamespacedName))]
    ∧ (runPass clusterClient resolverBuilders (requestFor "sample")
        (parentOnly (parentNamed "other" none))).store = parentOnly (parentNamed "other" none)
    ∧ (runPass clusterClient resolverBuilders (requestFor "sample")
        (parentOnly (parentNamed "other" none))).result = { Requeue := false, RequeueAfter := 0 }
    ∧ (runPass clusterClient resolverBuilders (requestFor "sample")
        (parentOnly (parentNamed "other" none))).err
      = (if IsNotFound (notFound (requestFor "sample").NamespacedName) then none
          else some (notFound (requestFor "sample").NamespacedName)) :=
  parent_fetch_failure clusterClient resolverBuilders (requestFor "sample")
    (parentOnly (parentNamed "other" none)) (parentOnly (parentNamed "other" none))
    (notFound (requestFor "sample").NamespacedName) (by decide)

/-- C9 at the store left by three passes for the parent `sample`: the create of the
fourth pass is refused, the pass ends on it and returns its error. -/
theorem store_failure_returned_witness :
    (runPass clusterClient resolverBuilders (requestFor "sample")
        (storeAfter resolverBuilders (requestFor "sample") 3
          (parentOnly (parentNamed "sample" none)))).trace.getLast?
      = some (Event.create
          (Object.statefulSet
            (resolverBuilders.statefulsetForEventBroker (parentNamed "sample" none) "-p"))
          (some (alreadyExists "sample-pubsubplus--p")))
    ∧ (runPass clusterClient resolverBuilders (requestFor "sample")
        (storeAfter resolverBuilders (requestFor "sample") 3
          (parentOnly (parentNamed "sample" none)))).result
      = { Requeue := false, RequeueAfter := 0 }
    ∧ (runPass clusterClient resolverBuilders (requestFor "sample")
        (storeAfter resolverBuilders (requestFor "sample") 3
          (parentOnly (parentNamed "sample" none)))).err
      = some (alreadyExists "sample-pubsubplus--p") :=
  store_failure_returned clusterClient resolverBuilders (requestFor "sample")
    (storeAfter resolverBuilders (requestFor "sample") 3 (parentOnly (parentNamed "sample" none)))
    (Event.create
      (Object.statefulSet
        (resolverBuilders.statefulsetForEventBroker (parentNamed "sample" none) "-p"))
      (some (alreadyExists "sample-pubsubplus--p")))
    (alreadyExists "sample-pubsubplus--p") (by decide) (by decide) (by decide)

/-! ## Status synchronization -/

/-- C4, as the code has it: on a pass that fetched the parent `eb` and listed the pods
`pods`, a status write is issued if and only if the listed pod names, in order, differ from
the stored `BrokerPods` sequence, or no pod is listed and the stored `BrokerPods` is an
empty list that is not nil. In particular no pod listed and an unset `BrokerPods` cause no
write. -/
theorem status_write_iff {σ : Type} (c : Client σ) (b : Builders) (req : Request) (st : σ)
    (k : NamespacedName) (eb : EventBroker) (ns : String) (labels : GoMap) (pods : List Pod)
    (hp : Event.getEventBroker k (Fetched.ok eb) ∈ (runPass c b req st).trace)
    (hl : Event.listPods ns labels (Fetched.ok pods) ∈ (runPass c b req st).trace) :
    (∃ eb2 res, Event.statusUpdate eb2 res ∈ (runPass c b req st).trace) ↔
      (pods.map Pod.Name ≠ eb.Status.BrokerPods.getD []
        ∨ (pods = [] ∧ eb.Status.BrokerPods = some [])) := by
  have key : (pods.map Pod.Name ≠ eb.Status.BrokerPods.getD []
        ∨ (pods = [] ∧ eb.Status.BrokerPods = some [])) ↔
      DeepEqual (getPodNames pods) eb.Status.BrokerPods = false := by
    rw [← Bool.not_eq_true, DeepEqual_iff, getPodNames_eq]
    cases hb : eb.Status.BrokerPods with
    | none =>
        by_cases hpods : pods = []
        · simp [hpods]
        · simp [hpods]
    | some l =>
        by_cases hpods : pods = []
        · subst hpods
          cases l <;> simp
        · simp [hpods]
  rw [key]
  clear key
  revert hp hl
  simp only [runPass, Reconcile, traced]
  repeat' split
  all_goals
    simp only [Prod.mk.injEq] at *
    (try casesm* _ ∧ _)
    subst_vars
    intro hp hl
    simp_all

/-- C4 at the store of the parent `a` with stored pod names `a-0` and the pods `a-0` and
`a-1` listed: a write is issued. -/
theorem status_write_iff_witness :
    (∃ eb2 res, Event.statusUpdate eb2 res ∈
        (runPass clusterClient resolverBuilders (requestFor "a")
          (steadyCluster (parentNamed "a" (some ["a-0"]))
            [brokerPod "a" "a-0" "message-routing-primary",
              brokerPod "a" "a-1" "message-routing-primary"])).trace) ↔
      ([brokerPod "a" "a-0" "message-routing-primary",
            brokerPod "a" "a-1" "message-routing-primary"].map Pod.Name
          ≠ (parentNamed "a" (some ["a-0"])).Status.BrokerPods.getD []
        ∨ ([brokerPod "a" "a-0" "message-routing-primary",
              brokerPod "a" "a-1" "message-routing-primary"] = []
            ∧ (parentNamed "a" (some ["a-0"])).Status.BrokerPods = some [])) :=
  status_write_iff clusterClient resolverBuilders (requestFor "a")
    (steadyCluster (parentNamed "a" (some ["a-0"]))
      [brokerPod "a" "a-0" "message-routing-primary",
        brokerPod "a" "a-1" "message-routing-primary"])
    (requestFor "a").NamespacedName (parentNamed "a" (some ["a-0"])) "default" (baseLabels "a")
    [brokerPod "a" "a-0" "message-routing-primary",
      brokerPod "a" "a-1" "message-routing-primary"]
    (by decide) (by decide)

/-- C4 as stated fails where the stored `BrokerPods` is an empty list that is not nil and
no pod is listed: the pass reaches status synchronization, the listed names and the stored
names are the same empty sequence, and a status write is issued all the same. -/
theorem status_write_on_empty_counterexample :
    Event.getEventBroker (requestFor "a").NamespacedName (Fetched.ok (parentNamed "a" (some [])))
        ∈ (runPass clusterClient resolverBuilders (requestFor "a")
            (steadyCluster (parentNamed "a" (some [])) [])).trace
    ∧ Event.listPods "default" (baseLabels "a") (Fetched.ok [])
        ∈ (runPass clusterClient resolverBuilders (requestFor "a")
            (steadyCluster (parentNamed "a" (some [])) [])).trace
    ∧ ([] : List Pod).map Pod.Name = (parentNamed "a" (some [])).Status.BrokerPods.getD []
    ∧ Event.statusUpdate (parentNamed "a" none) none
        ∈ (runPass clusterClient resolverBuilders (requestFor "a")
            (steadyCluster (parentNamed "a" (some [])) [])).trace := by
  decide

/-! ## The end-to-end scenario -/

/-- C5, as the code has it: for every parent with an unset `BrokerPods`, in a store of
the in-memory model that holds the parent and nothing else, with builders that name the
Service and the ConfigMap through the Naming Resolver and give the StatefulSet built for
the suffix `-p` of `Reconcile` the name of the parent followed by `-pubsubplus-p`: pass 1
creates exactly the Service and requeues, pass 2 exactly the ConfigMap, pass 3 exactly the
StatefulSet, pass 4 makes no mutating call and returns done with no requeue; the store
then holds the parent unchanged with exactly these three children. -/
theorem scenario_four_passes (b : Builders) (eb : EventBroker)
    (hstatus : eb.Status.BrokerPods = none)
    (hsvc : (b.serviceForEventBroker eb).Name = getObjectName "Service" eb.Name
      ∧ (b.serviceForEventBroker eb).Namespace = eb.Namespace)
    (hcm : (b.configmapForEventBroker eb).Name = getObjectName "ConfigMap" eb.Name
      ∧ (b.configmapForEventBroker eb).Namespace = eb.Namespace)
    (hsts : (b.statefulsetForEventBroker eb "-p").Name = eb.Name ++ "-pubsubplus" ++ "-p"
      ∧ (b.statefulsetForEventBroker eb "-p").Namespace = eb.Namespace) :
    ((runPass clusterClient b ⟨⟨eb.Namespace, eb.Name⟩⟩
          (parentOnly eb)).trace.filter Event.isMutating
        = [Event.create (Object.service (b.serviceForEventBroker eb)) none]
      ∧ (b.serviceForEventBroker eb).Name = eb.Name ++ "-pubsubplus"
      ∧ (runPass clusterClient b ⟨⟨eb.Namespace, eb.Name⟩⟩ (parentOnly eb)).result
        = { Requeue := true, RequeueAfter := 0 }
      ∧ (runPass clusterClient b ⟨⟨eb.Namespace, eb.Name⟩⟩ (parentOnly eb)).err = none)
    ∧ ((runPass clusterClient b ⟨⟨eb.Namespace, eb.Name⟩⟩
          (storeAfter b ⟨⟨eb.Namespace, eb.Name⟩⟩ 1 (parentOnly eb))).trace.filter
            Event.isMutating
        = [Event.create (Object.configMap (b.configmapForEventBroker eb)) none]
      ∧ (b.configmapForEventBroker eb).Name = eb.Name ++ "-pubsubplus"
      ∧ (runPass clusterClient b ⟨⟨eb.Namespace, eb.Name⟩⟩
          (storeAfter b ⟨⟨eb.Namespace, eb.Name⟩⟩ 1 (parentOnly eb))).result
        = { Requeue := true, RequeueAfter := 0 }
      ∧ (runPass clusterClient b ⟨⟨eb.Namespace, eb.Name⟩⟩
          (storeAfter b ⟨⟨eb.Namespace, eb.Name⟩⟩ 1 (parentOnly eb))).err = none)
    ∧ ((runPass clusterClient b ⟨⟨eb.Namespace, eb.Name⟩⟩
          (storeAfter b ⟨⟨eb.Namespace, eb.Name⟩⟩ 2 (parentOnly eb))).trace.filter
            Event.isMutating
        = [Event.create (Object.statefulSet (b.statefulsetForEventBroker eb "-p")) none]
      ∧ (b.statefulsetForEventBroker eb "-p").Name = eb.Name ++ "-pubsubplus-p"
      ∧ (runPass clusterClient b ⟨⟨eb.Namespace, eb.Name⟩⟩
          (storeAfter b ⟨⟨eb.Namespace, eb.Name⟩⟩ 2 (parentOnly eb))).result
        = { Requeue := true, RequeueAfter := 0 }
      ∧ (runPass clusterClient b ⟨⟨eb.Namespace, eb.Name⟩⟩
          (storeAfter b ⟨⟨eb.Namespace, eb.Name⟩⟩ 2 (parentOnly eb))).err = none)
    ∧ ((runPass clusterClient b ⟨⟨eb.Namespace, eb.Name⟩⟩
          (storeAfter b ⟨⟨eb.Namespace, eb.Name⟩⟩ 3 (parentOnly eb))).trace.filter
            Event.isMutating = []
      ∧ (runPass clusterClient b ⟨⟨eb.Namespace, eb.Name⟩⟩
          (storeAfter b ⟨⟨eb.Namespace, eb.Name⟩⟩ 3 (parentOnly eb))).result
        = { Requeue := false, RequeueAfter := 0 }
      ∧ (runPass clusterClient b ⟨⟨eb.Namespace, eb.Name⟩⟩
          (storeAfter b ⟨⟨eb.Namespace, eb.Name⟩⟩ 3 (parentOnly eb))).err = none)
    ∧ storeAfter b ⟨⟨eb.Namespace, eb.Name⟩⟩ 4 (parentOnly eb)
        = { eventbrokers := [eb],
            services := [b.serviceForEventBroker eb],
            configmaps := [b.configmapForEventBroker eb],
            statefulsets := [b.statefulsetForEventBroker eb "-p"],
            pods := [] } := by
  obtain ⟨hsn, hss⟩ := hsvc
  obtain ⟨hcn, hcs⟩ := hcm
  obtain ⟨htn, hts⟩ := hsts
  have e1 : getObjectName "Service" eb.Name = eb.Name ++ "-pubsubplus" := by
    simp [getObjectName, mapIndex, nameSuffix, mapLookup]
  have e2 : getObjectName "ConfigMap" eb.Name = eb.Name ++ "-pubsubplus" := by
    simp [getObjectName, mapIndex, nameSuffix, mapLookup]
  have e3 : eb.Name ++ "-pubsubplus" ++ "-p" = eb.Name ++ "-pubsubplus-p" := by
    simp [String.ext_iff]
  rw [e1] at hsn
  rw [e2] at hcn
  rw [e3] at htn
  have nf : ∀ key, IsNotFound (notFound key) = true := fun _ => rfl
  have p1 : runPass clusterClient b ⟨⟨eb.Namespace, eb.Name⟩⟩ (parentOnly eb)
      = { result := { Requeue := true, RequeueAfter := 0 }, err := none,
          store := { eventbrokers := [eb], services := [b.serviceForEventBroker eb],
                     configmaps := [], statefulsets := [], pods := [] },
          trace := [Event.getEventBroker ⟨eb.Namespace, eb.Name⟩ (Fetched.ok eb),
            Event.getService ⟨eb.Namespace, eb.Name ++ "-pubsubplus"⟩
              (Fetched.error (notFound ⟨eb.Namespace, eb.Name ++ "-pubsubplus"⟩)),
            Event.create (Object.service (b.serviceForEventBroker eb)) none] } := by
    simp [runPass, Reconcile, traced, clusterClient, parentOnly, fetchedOf, nf,
      Cluster.create]
  have p2 : runPass clusterClient b ⟨⟨eb.Namespace, eb.Name⟩⟩
        { eventbrokers := [eb], services := [b.serviceForEventBroker eb],
          configmaps := [], statefulsets := [], pods := [] }
      = { result := { Requeue := true, RequeueAfter := 0 }, err := none,
          store := { eventbrokers := [eb], services := [b.serviceForEventBroker eb],
                     configmaps := [b.configmapForEventBroker eb], statefulsets := [],
                     pods := [] },
          trace := [Event.getEventBroker ⟨eb.Namespace, eb.Name⟩ (Fetched.ok eb),
            Event.getService ⟨eb.Namespace, eb.Name ++ "-pubsubplus"⟩
              (Fetched.ok (b.serviceForEventBroker eb)),
            Event.getConfigMap ⟨eb.Namespace, eb.Name ++ "-pubsubplus"⟩
              (Fetched.error (notFound ⟨eb.Namespace, eb.Name ++ "-pubsubplus"⟩)),
            Event.create (Object.configMap (b.configmapForEventBroker eb)) none] } := by
    simp [runPass, Reconcile, traced, clusterClient, fetchedOf, nf, Cluster.create, hsn, hss]
  have p3 : runPass clusterClient b ⟨⟨eb.Namespace, eb.Name⟩⟩
        { eventbrokers := [eb], services := [b.serviceForEventBroker eb],
          configmaps := [b.configmapForEventBroker eb], statefulsets := [], pods := [] }
      = { result := { Requeue := true, RequeueAfter := 0 }, err := none,
          store := { eventbrokers := [eb], services := [b.serviceForEventBroker eb],
                     configmaps := [b.configmapForEventBroker eb],
                     statefulsets := [b.statefulsetForEventBroker eb "-p"], pods := [] },
          trace := [Event.getEventBroker ⟨eb.Namespace, eb.Name⟩ (Fetched.ok eb),
            Event.getService ⟨eb.Namespace, eb.Name ++ "-pubsubplus"⟩
              (Fetched.ok (b.serviceForEventBroker eb)),
            Event.getConfigMap ⟨eb.Namespace, eb.Name ++ "-pubsubplus"⟩
              (Fetched.ok (b.configmapForEventBroker eb)),
            Event.getStatefulSet ⟨eb.Namespace, eb.Name ++ "-pubsubplus-p"⟩
              (Fetched.error (notFound ⟨eb.Namespace, eb.Name ++ "-pubsubplus-p"⟩)),
            Event.create (Object.statefulSet (b.statefulsetForEventBroker eb "-p")) none] } := by
    simp [runPass, Reconcile, traced, clusterClient, fetchedOf, nf, Cluster.create, hsn, hss,
      hcn, hcs]
  have p4 : runPass clusterClient b ⟨⟨eb.Namespace, eb.Name⟩⟩
        { eventbrokers := [eb], services := [b.serviceForEventBroker eb],
          configmaps := [b.configmapForEventBroker eb],
          statefulsets := [b.statefulsetForEventBroker eb "-p"], pods := [] }
      = { result := { Requeue := false, RequeueAfter := 0 }, err := none,
          store := { eventbrokers := [eb], services := [b.serviceForEventBroker eb],
                     configmaps := [b.configmapForEventBroker eb],
                     statefulsets := [b.statefulsetForEventBroker eb "-p"], pods := [] },
          trace := [Event.getEventBroker ⟨eb.Namespace, eb.Name⟩ (Fetched.ok eb),
            Event.getService ⟨eb.Namespace, eb.Name ++ "-pubsubplus"⟩
              (Fetched.ok (b.serviceForEventBroker eb)),
            Event.getConfigMap ⟨eb.Namespace, eb.Name ++ "-pubsubplus"⟩
              (Fetched.ok (b.configmapForEventBroker eb)),
            Event.getStatefulSet ⟨eb.Namespace, eb.Name ++ "-pubsubplus-p"⟩
              (Fetched.ok (b.statefulsetForEventBroker eb "-p")),
            Event.listPods eb.Namespace (baseLabels eb.Name) (Fetched.ok [])] } := by
    simp [runPass, Reconcile, traced, clusterClient, fetchedOf, hsn, hss, hcn, hcs, htn, hts,
      getPodNames, hstatus, DeepEqual]
  simp only [storeAfter, p1, p2, p3, p4]
  simp [Event.isMutating, hsn, hcn, htn]

/-- C5 at the parent `sample` with builders that append the suffix they are given. -/
theorem scenario_four_passes_witness :
    ((runPass clusterClient appendingBuilders
          ⟨⟨(parentNamed "sample" none).Namespace, (parentNamed "sample" none).Name⟩⟩
          (parentOnly (parentNamed "sample" none))).trace.filter Event.isMutating
        = [Event.create (Object.service
            (appendingBuilders.serviceForEventBroker (parentNamed "sample" none))) none]
      ∧ (appendingBuilders.serviceForEventBroker (parentNamed "sample" none)).Name
        = (parentNamed "sample" none).Name ++ "-pubsubplus"
      ∧ (runPass clusterClient appendingBuilders
          ⟨⟨(parentNamed "sample" none).Namespace, (parentNamed "sample" none).Name⟩⟩
          (parentOnly (parentNamed "sample" none))).result
        = { Requeue := true, RequeueAfter := 0 }
      ∧ (runPass clusterClient appendingBuilders
          ⟨⟨(parentNamed "sample" none).Namespace, (parentNamed "sample" none).Name⟩⟩
          (parentOnly (parentNamed "sample" none))).err = none)
    ∧ ((runPass clusterClient appendingBuilders
          ⟨⟨(parentNamed "sample" none).Namespace, (parentNamed "sample" none).Name⟩⟩
          (storeAfter appendingBuilders
            ⟨⟨(parentNamed "sample" none).Namespace, (parentNamed "sample" none).Name⟩⟩ 1
            (parentOnly (parentNamed "sample" none)))).trace.filter Event.isMutating
        = [Event.create (Object.configMap
            (appendingBuilders.configmapForEventBroker (parentNamed "sample" none))) none]
      ∧ (appendingBuilders.configmapForEventBroker (parentNamed "sample" none)).Name
        = (parentNamed "sample" none).Name ++ "-pubsubplus"
      ∧ (runPass clusterClient appendingBuilders
          ⟨⟨(parentNamed "sample" none).Namespace, (parentNamed "sample" none).Name⟩⟩
          (storeAfter appendingBuilders
            ⟨⟨(parentNamed "sample" none).Namespace, (parentNamed "sample" none).Name⟩⟩ 1
            (parentOnly (parentNamed "sample" none)))).result
        = { Requeue := true, RequeueAfter := 0 }
      ∧ (runPass clusterClient appendingBuilders
          ⟨⟨(parentNamed "sample" none).Namespace, (parentNamed "sample" none).Name⟩⟩
          (storeAfter appendingBuilders
            ⟨⟨(parentNamed "sample" none).Namespace, (parentNamed "sample" none).Name⟩⟩ 1
            (parentOnly (parentNamed "sample" none)))).err = none)
    ∧ ((runPass clusterClient appendingBuilders
          ⟨⟨(parentNamed "sample" none).Namespace, (parentNamed "sample" none).Name⟩⟩
          (storeAfter appendingBuilders
            ⟨⟨(parentNamed "sample" none).Namespace, (parentNamed "sample" none).Name⟩⟩ 2
            (parentOnly (parentNamed "sample" none)))).trace.filter Event.isMutating
        = [Event.create (Object.statefulSet
            (appendingBuilders.statefulsetForEventBroker (parentNamed "sample" none) "-p"))
            none]
      ∧ (appendingBuilders.statefulsetForEventBroker (parentNamed "sample" none) "-p").Name
        = (parentNamed "sample" none).Name ++ "-pubsubplus-p"
      ∧ (runPass clusterClient appendingBuilders
          ⟨⟨(parentNamed "sample" none).Namespace, (parentNamed "sample" none).Name⟩⟩
          (storeAfter appendingBuilders
            ⟨⟨(parentNamed "sample" none).Namespace, (parentNamed "sample" none).Name⟩⟩ 2
            (parentOnly (parentNamed "sample" none)))).result
        = { Requeue := true, RequeueAfter := 0 }
      ∧ (runPass clusterClient appendingBuilders
          ⟨⟨(parentNamed "sample" none).Namespace, (parentNamed "sample" none).Name⟩⟩
          (storeAfter appendingBuilders
            ⟨⟨(parentNamed "sample" none).Namespace, (parentNamed "sample" none).Name⟩⟩ 2
            (parentOnly (parentNamed "sample" none)))).err = none)
    ∧ ((runPass clusterClient appendingBuilders
          ⟨⟨(parentNamed "sample" none).Namespace, (parentNamed "sample" none).Name⟩⟩
          (storeAfter appendingBuilders
            ⟨⟨(parentNamed "sample" none).Namespace, (parentNamed "sample" none).Name⟩⟩ 3
            (parentOnly (parentNamed "sample" none)))).trace.filter Event.isMutating = []
      ∧ (runPass clusterClient appendingBuilders
          ⟨⟨(parentNamed "sample" none).Namespace, (parentNamed "sample" none).Name⟩⟩
          (storeAfter appendingBuilders
            ⟨⟨(parentNamed "sample" none).Namespace, (parentNamed "sample" none).Name⟩⟩ 3
            (parentOnly (parentNamed "sample" none)))).result
        = { Requeue := false, RequeueAfter := 0 }
      ∧ (runPass clusterClient appendingBuilders
          ⟨⟨(parentNamed "sample" none).Namespace, (parentNamed "sample" none).Name⟩⟩
          (storeAfter appendingBuilders
            ⟨⟨(parentNamed "sample" none).Namespace, (parentNamed "sample" none).Name⟩⟩ 3
            (parentOnly (parentNamed "sample" none)))).err = none)
    ∧ storeAfter appendingBuilders
          ⟨⟨(parentNamed "sample" none).Namespace, (parentNamed "sample" none).Name⟩⟩ 4
          (parentOnly (parentNamed "sample" none))
        = { eventbrokers := [parentNamed "sample" none],
            services := [appendingBuilders.serviceForEventBroker (parentNamed "sample" none)],
            configmaps := [appendingBuilders.configmapForEventBroker (parentNamed "sample" none)],
            statefulsets :=
              [appendingBuilders.statefulsetForEventBroker (parentNamed "sample" none) "-p"],
            pods := [] } :=
  scenario_four_passes appendingBuilders (parentNamed "sample" none) (by decide)
    ⟨by decide, by decide⟩ ⟨by decide, by decide⟩ ⟨by decide, by decide⟩

/-- C5 as stated fails at the parent `sample` on two counts. With builders that name
through the Naming Resolver with the role suffix they are given, pass 3 hands the builder
the suffix `-p`, so the StatefulSet created is `sample-pubsubplus--p` and not the
`sample-pubsubplus-p` of the existence check, and pass 4 tries the create again and
returns the AlreadyExists error of the store. And with a stored `BrokerPods` that is empty
but not nil, pass 4 finds the three children, lists no pod and writes the status. -/
theorem scenario_as_stated_counterexample :
    (runPass clusterClient resolverBuilders (requestFor "sample")
        (storeAfter resolverBuilders (requestFor "sample") 2
          (parentOnly (parentNamed "sample" none)))).trace.filter Event.isMutating
      = [Event.create (Object.statefulSet
          { Name := "sample-pubsubplus--p", Namespace := "default",
            Labels := getObjectLabels "sample" }) none]
    ∧ (runPass clusterClient resolverBuilders (requestFor "sample")
        (storeAfter resolverBuilders (requestFor "sample") 3
          (parentOnly (parentNamed "sample" none)))).err
      = some (alreadyExists "sample-pubsubplus--p")
    ∧ (runPass clusterClient appendingBuilders (requestFor "sample")
        (storeAfter appendingBuilders (requestFor "sample") 3
          (parentOnly (parentNamed "sample" (some []))))).trace.filter Event.isMutating
      = [Event.statusUpdate (parentNamed "sample" none) none] := by
  decide

/-! ## Idempotence in steady state -/

/-- A get of the in-memory store answers with an object exactly when the lookup found it. -/
theorem fetchedOf_ok {α : Type} (key : NamespacedName) (o : Option α) (x : α) :
    fetchedOf key o = Fetched.ok x ↔ o = some x := by
  cases o <;> simp [fetchedOf]

/-- A lookup commutes with a rewrite of the stored objects that keeps what the lookup
tests. -/
theorem find?_map_of_preserved {α : Type} (l : List α) (q : α → Bool) (f : α → α)
    (hf : ∀ x, q (f x) = q x) : (l.map f).find? q = (l.find? q).map f := by
  induction l with
  | nil => rfl
  | cons x xs ih =>
      simp only [List.map_cons, List.find?_cons, hf]
      cases q x <;> simp [ih]

/-- The in-memory store, with any listing order, is a stable store. -/
theorem orderedClient_stable (order : List Pod → List Pod) :
    StableStore (orderedClient order) := by
  refine ⟨fun _ _ => rfl, fun _ _ => rfl, fun _ _ => rfl, fun _ _ => rfl, fun _ _ _ => rfl, ?_⟩
  intro cl eb hw
  by_cases hany : cl.eventbrokers.any (fun x =>
      x.Namespace == eb.Namespace && x.Name == eb.Name) = true
  · have hstore : ((orderedClient order).StatusUpdate cl eb).2 =
        { cl with eventbrokers := cl.eventbrokers.map (fun x =>
            if x.Namespace == eb.Namespace && x.Name == eb.Name then
              { x with Status := eb.Status } else x) } := by
      simp [orderedClient, clusterClient, Cluster.statusUpdate, hany]
    rw [hstore]
    refine ⟨fun _ => rfl, fun _ => rfl, fun _ => rfl, fun _ _ => rfl, ?_⟩
    intro k e0 hget hname hns
    simp only [orderedClient, clusterClient, fetchedOf_ok] at hget ⊢
    rw [find?_map_of_preserved, hget]
    · simp [hname, hns]
    · intro x
      split <;> rfl
  · exfalso
    simp [orderedClient, clusterClient, Cluster.statusUpdate, hany] at hw

/-- C6, as the code has it: on a stable store (reads repeatable, in the same order, and a
status write kept) in a state that holds the parent, its Service, its ConfigMap and its
primary StatefulSet, where the listing and the status write succeed, a second pass right
after a first leaves the store as the first left it, makes no mutating call (no create,
no status write) and returns done with no requeue and no error. -/
theorem stable_store_idempotent {σ : Type} (c : Client σ) (hstable : StableStore c)
    (b : Builders) (req : Request) (st : σ)
    (eb : EventBroker) (svc : Service) (cm : ConfigMap) (sts : StatefulSet) (pods : List Pod)
    (hp : (c.GetEventBroker st req.NamespacedName).1 = Fetched.ok eb)
    (hs : (c.GetService st
      { Name := eb.Name ++ "-pubsubplus", Namespace := eb.Namespace }).1 = Fetched.ok svc)
    (hc : (c.GetConfigMap st
      { Name := eb.Name ++ "-pubsubplus", Namespace := eb.Namespace }).1 = Fetched.ok cm)
    (ht : (c.GetStatefulSet st
      { Name := eb.Name ++ "-pubsubplus-p", Namespace := eb.Namespace }).1 = Fetched.ok sts)
    (hl : (c.ListPods st eb.Namespace (baseLabels eb.Name)).1 = Fetched.ok pods)
    (hw : (c.StatusUpdate st
      { eb with Status := { eb.Status with BrokerPods := getPodNames pods } }).1 = none) :
    (runPass c b req (runPass c b req st).store).store = (runPass c b req st).store
    ∧ (runPass c b req (runPass c b req st).store).trace.filter Event.isMutating = []
    ∧ (runPass c b req (runPass c b req st).store).result
        = { Requeue := false, RequeueAfter := 0 }
    ∧ (runPass c b req (runPass c b req st).store).err = none := by
  obtain ⟨r1, r2, r3, r4, r5, rw6⟩ := hstable
  -- a pass on a state where the stored names are those listed reads only
  have quiet : ∀ (s : σ) (e : EventBroker) (sv : Service) (cf : ConfigMap) (ss : StatefulSet)
      (ps : List Pod),
      (c.GetEventBroker s req.NamespacedName).1 = Fetched.ok e →
      (c.GetService s { Name := e.Name ++ "-pubsubplus", Namespace := e.Namespace }).1
        = Fetched.ok sv →
      (c.GetConfigMap s { Name := e.Name ++ "-pubsubplus", Namespace := e.Namespace }).1
        = Fetched.ok cf →
      (c.GetStatefulSet s { Name := e.Name ++ "-pubsubplus-p", Namespace := e.Namespace }).1
        = Fetched.ok ss →
      (c.ListPods s e.Namespace (baseLabels e.Name)).1 = Fetched.ok ps →
      DeepEqual (getPodNames ps) e.Status.BrokerPods = true →
      (runPass c b req s).store = s
      ∧ (runPass c b req s).trace.filter Event.isMutating = []
      ∧ (runPass c b req s).result = { Requeue := false, RequeueAfter := 0 }
      ∧ (runPass c b req s).err = none := by
    intro s e sv cf ss ps h1 h2 h3 h4 h5 hd
    have g1 : c.GetEventBroker s req.NamespacedName = (Fetched.ok e, s) :=
      Prod.ext h1 (r1 _ _)
    have g2 : c.GetService s { Name := e.Name ++ "-pubsubplus", Namespace := e.Namespace }
        = (Fetched.ok sv, s) := Prod.ext h2 (r2 _ _)
    have g3 : c.GetConfigMap s { Name := e.Name ++ "-pubsubplus", Namespace := e.Namespace }
        = (Fetched.ok cf, s) := Prod.ext h3 (r3 _ _)
    have g4 : c.GetStatefulSet s { Name := e.Name ++ "-pubsubplus-p", Namespace := e.Namespace }
        = (Fetched.ok ss, s) := Prod.ext h4 (r4 _ _)
    have g5 : c.ListPods s e.Namespace (baseLabels e.Name) = (Fetched.ok ps, s) :=
      Prod.ext h5 (r5 _ _ _)
    simp only [runPass, Reconcile, traced, g1, g2, g3, g4, g5, hd]
    simp [Event.isMutating]
  by_cases hd : DeepEqual (getPodNames pods) eb.Status.BrokerPods = true
  · have q := quiet st eb svc cm sts pods hp hs hc ht hl hd
    rw [q.1]
    exact q
  · have g1 : c.GetEventBroker st req.NamespacedName = (Fetched.ok eb, st) :=
      Prod.ext hp (r1 _ _)
    have g2 : c.GetService st { Name := eb.Name ++ "-pubsubplus", Namespace := eb.Namespace }
        = (Fetched.ok svc, st) := Prod.ext hs (r2 _ _)
    have g3 : c.GetConfigMap st { Name := eb.Name ++ "-pubsubplus", Namespace := eb.Namespace }
        = (Fetched.ok cm, st) := Prod.ext hc (r3 _ _)
    have g4 : c.GetStatefulSet st
        { Name := eb.Name ++ "-pubsubplus-p", Namespace := eb.Namespace }
        = (Fetched.ok sts, st) := Prod.ext ht (r4 _ _)
    have g5 : c.ListPods st eb.Namespace (baseLabels eb.Name) = (Fetched.ok pods, st) :=
      Prod.ext hl (r5 _ _ _)
    have hstore : (runPass c b req st).store = (c.StatusUpdate st
        { eb with Status := { eb.Status with BrokerPods := getPodNames pods } }).2 := by
      simp only [runPass, Reconcile, traced, g1, g2, g3, g4, g5, hd]
      rcases hu : c.StatusUpdate st
        { eb with Status := { eb.Status with BrokerPods := getPodNames pods } } with ⟨res, s2⟩
      cases res <;> simp [hu]
    obtain ⟨k1, k2, k3, k4, k5⟩ := rw6 st _ hw
    rw [hstore]
    refine quiet _ { eb with Status := { eb.Status with BrokerPods := getPodNames pods } }
      svc cm sts pods ?_ ?_ ?_ ?_ ?_ ?_
    · exact k5 _ eb hp rfl rfl
    · rw [k1]; exact hs
    · rw [k2]; exact hc
    · rw [k3]; exact ht
    · rw [k4]; exact hl
    · rw [DeepEqual_iff]

/-- C6 at the in-memory store of the parent `a` with stored pod names `a-0`, the pods `a-0`
and `a-1` and a listing in reverse store order: the first pass writes the status, the
second changes nothing. -/
theorem stable_store_idempotent_witness :
    (runPass (orderedClient List.reverse) resolverBuilders (requestFor "a")
        (runPass (orderedClient List.reverse) resolverBuilders (requestFor "a")
          (steadyCluster (parentNamed "a" (some ["a-0"]))
            [brokerPod "a" "a-0" "message-routing-primary",
              brokerPod "a" "a-1" "message-routing-primary"])).store).store
      = (runPass (orderedClient List.reverse) resolverBuilders (requestFor "a")
          (steadyCluster (parentNamed "a" (some ["a-0"]))
            [brokerPod "a" "a-0" "message-routing-primary",
              brokerPod "a" "a-1" "message-routing-primary"])).store
    ∧ (runPass (orderedClient List.reverse) resolverBuilders (requestFor "a")
        (runPass (orderedClient List.reverse) resolverBuilders (requestFor "a")
          (steadyCluster (parentNamed "a" (some ["a-0"]))
            [brokerPod "a" "a-0" "message-routing-primary",
              brokerPod "a" "a-1" "message-routing-primary"])).store).trace.filter
          Event.isMutating = []
    ∧ (runPass (orderedClient List.reverse) resolverBuilders (requestFor "a")
        (runPass (orderedClient List.reverse) resolverBuilders (requestFor "a")
          (steadyCluster (parentNamed "a" (some ["a-0"]))
            [brokerPod "a" "a-0" "message-routing-primary",
              brokerPod "a" "a-1" "message-routing-primary"])).store).result
        = { Requeue := false, RequeueAfter := 0 }
    ∧ (runPass (orderedClient List.reverse) resolverBuilders (requestFor "a")
        (runPass (orderedClient List.reverse) resolverBuilders (requestFor "a")
          (steadyCluster (parentNamed "a" (some ["a-0"]))
            [brokerPod "a" "a-0" "message-routing-primary",
              brokerPod "a" "a-1" "message-routing-primary"])).store).err = none :=
  stable_store_idempotent (orderedClient List.reverse) (orderedClient_stable List.reverse)
    resolverBuilders (requestFor "a")
    (steadyCluster (parentNamed "a" (some ["a-0"]))
      [brokerPod "a" "a-0" "message-routing-primary",
        brokerPod "a" "a-1" "message-routing-primary"])
    (parentNamed "a" (some ["a-0"]))
    (resolverBuilders.serviceForEventBroker (parentNamed "a" (some ["a-0"])))
    (resolverBuilders.configmapForEventBroker (parentNamed "a" (some ["a-0"])))
    (resolverBuilders.statefulsetForEventBroker (parentNamed "a" (some ["a-0"])) "p")
    [brokerPod "a" "a-1" "message-routing-primary",
      brokerPod "a" "a-0" "message-routing-primary"]
    (by decide) (by decide) (by decide) (by decide) (by decide) (by decide)

/-- C6 as stated fails for a store whose listing order is not stable: on the steady store
of the parent `a` with the pods `a-0` and `a-1` and the stored names `a-0`, `a-1`, where
every call succeeds and only the order of the listing alternates, the first pass writes
nothing, and the second pass, with nothing changed in between, lists the pods in the
other order, writes the status and leaves another store. -/
theorem unstable_listing_counterexample :
    (∀ ev ∈ (runPass alternatingClient resolverBuilders (requestFor "a")
          (steadyCluster (parentNamed "a" (some ["a-0", "a-1"]))
            [brokerPod "a" "a-0" "message-routing-primary",
              brokerPod "a" "a-1" "message-routing-primary"], false)).trace
        ++ (runPass alternatingClient resolverBuilders (requestFor "a")
          (runPass alternatingClient resolverBuilders (requestFor "a")
            (steadyCluster (parentNamed "a" (some ["a-0", "a-1"]))
              [brokerPod "a" "a-0" "message-routing-primary",
                brokerPod "a" "a-1" "message-routing-primary"], false)).store).trace,
        ev.err? = none)
    ∧ (runPass alternatingClient resolverBuilders (requestFor "a")
          (steadyCluster (parentNamed "a" (some ["a-0", "a-1"]))
            [brokerPod "a" "a-0" "message-routing-primary",
              brokerPod "a" "a-1" "message-routing-primary"], false)).trace.filter
          Event.isMutating = []
    ∧ (runPass alternatingClient resolverBuilders (requestFor "a")
          (runPass alternatingClient resolverBuilders (requestFor "a")
            (steadyCluster (parentNamed "a" (some ["a-0", "a-1"]))
              [brokerPod "a" "a-0" "message-routing-primary",
                brokerPod "a" "a-1" "message-routing-primary"], false)).store).trace.filter
          Event.isMutating
        = [Event.statusUpdate (parentNamed "a" (some ["a-1", "a-0"])) none]
    ∧ (runPass alternatingClient resolverBuilders (requestFor "a")
          (runPass alternatingClient resolverBuilders (requestFor "a")
            (steadyCluster (parentNamed "a" (some ["a-0", "a-1"]))
              [brokerPod "a" "a-0" "message-routing-primary",
                brokerPod "a" "a-1" "message-routing-primary"], false)).store).store.1
        ≠ (runPass alternatingClient resolverBuilders (requestFor "a")
            (steadyCluster (parentNamed "a" (some ["a-0", "a-1"]))
              [brokerPod "a" "a-0" "message-routing-primary",
                brokerPod "a" "a-1" "message-routing-primary"], false)).store.1 := by
  decide

/-! ## Names across deployments, unknown kinds and the empty name -/

/-- C11: for every kind, two different deployment names get two different object names. -/
theorem getObjectName_injective (k n1 n2 : String) (h : n1 ≠ n2) :
    getObjectName k n1 ≠ getObjectName k n2 := by
  intro e
  apply h
  unfold getObjectName at e
  have hd := congrArg String.data e
  rw [String.data_append, String.data_append] at hd
  exact String.ext (List.append_cancel_right hd)

/-- C11 at the Service names of the deployments `a` and `b`. -/
theorem getObjectName_injective_witness :
    getObjectName "Service" "a" ≠ getObjectName "Service" "b" :=
  getObjectName_injective "Service" "a" "b" (by decide)

/-- C12: for every kind that is none of the eight known ones, `getObjectName` returns the
deployment name unchanged. -/
theorem getObjectName_unknown (k n : String)
    (h : k ∉ ["ConfigMap", "DiscoveryService", "Role", "RoleBinding", "ServiceAccount",
      "Secret", "Service", "StatefulSet"]) :
    getObjectName k n = n := by
  simp only [List.mem_cons, List.mem_singleton, List.not_mem_nil, or_false, not_or] at h
  obtain ⟨h1, h2, h3, h4, h5, h6, h7, h8⟩ := h
  have hl : mapLookup nameSuffix k = none := by
    simp only [nameSuffix, mapLookup, if_neg (Ne.symm h1), if_neg (Ne.symm h2),
      if_neg (Ne.symm h3), if_neg (Ne.symm h4), if_neg (Ne.symm h5), if_neg (Ne.symm h6),
      if_neg (Ne.symm h7), if_neg (Ne.symm h8)]
  simp [getObjectName, mapIndex, hl]

/-- C12 at a known kind in another letter case and at the empty kind. -/
theorem getObjectName_unknown_witness :
    getObjectName "service" "sample" = "sample" ∧ getObjectName "" "sample" = "sample" :=
  ⟨getObjectName_unknown "service" "sample" (by decide),
    getObjectName_unknown "" "sample" (by decide)⟩

/-- C17, as the code has it: for every non-empty input string `getBrokerNodeType` returns
a label (possibly the empty one); the byte it reads is the one at index `len - 1`, and
that index is within the bounds of the name. -/
theorem getBrokerNodeType_total_nonempty (s : String) (hs : s ≠ "") :
    (∃ label, getBrokerNodeType s = some label)
    ∧ (goBytes s).getLast? = (goBytes s)[(goBytes s).length - 1]?
    ∧ (goBytes s).length - 1 < (goBytes s).length := by
  have hne : s.data ≠ [] := fun e => hs (String.ext (by simpa using e))
  obtain ⟨c, hc⟩ : ∃ c, s.data.getLast? = some c := by
    rcases List.eq_nil_or_concat s.data with hnil | ⟨init, x, hx⟩
    · exact absurd hnil hne
    · exact ⟨x, by simp [hx]⟩
  have hne2 : utf8EncodeRune c.toNat ≠ [] := by
    unfold utf8EncodeRune
    split_ifs <;> simp
  obtain ⟨b, hb⟩ : ∃ b, (goBytes s).getLast? = some b := by
    rw [goBytes_getLast s c hc]
    rcases List.eq_nil_or_concat (utf8EncodeRune c.toNat) with hnil | ⟨init, x, hx⟩
    · exact absurd hnil hne2
    · exact ⟨x, by simp [hx]⟩
  have hpos : 0 < (goBytes s).length := by
    cases hg : goBytes s with
    | nil => simp [hg] at hb
    | cons x xs => simp
  refine ⟨?_, List.getLast?_eq_getElem? _, by omega⟩
  unfold getBrokerNodeType
  rw [hb]
  exact ⟨_, rfl⟩

/-- C17 at the name of a primary StatefulSet. -/
theorem getBrokerNodeType_total_nonempty_witness :
    (∃ label, getBrokerNodeType "sample-pubsubplus-p" = some label)
    ∧ (goBytes "sample-pubsubplus-p").getLast?
        = (goBytes "sample-pubsubplus-p")[(goBytes "sample-pubsubplus-p").length - 1]?
    ∧ (goBytes "sample-pubsubplus-p").length - 1 < (goBytes "sample-pubsubplus-p").length :=
  getBrokerNodeType_total_nonempty "sample-pubsubplus-p" (by decide)

/-- C17 as stated fails on the empty string: the name has no byte, the index `len - 1` is
`-1`, and `getBrokerNodeType` stops with the run-time fault instead of returning a label. -/
theorem getBrokerNodeType_empty_counterexample :
    (goBytes "").length = 0
    ∧ (Int.ofNat (goBytes "").length - 1 = -1)
    ∧ getBrokerNodeType "" = none
    ∧ ¬ ∃ label, getBrokerNodeType "" = some label := by
  refine ⟨by decide, by decide, by decide, ?_⟩
  rintro ⟨label, h⟩
  have hnone : getBrokerNodeType "" = none := by decide
  rw [hnone] at h
  exact Option.noConfusion h

/-! ## The names and the selector the pass uses -/

/-- The StatefulSet name of a deployment name without `%`, for any role suffix. -/
theorem getStatefulsetName_template (n r : String) (h : '%' ∉ n.data) :
    getStatefulsetName n r = some (n ++ "-pubsubplus-" ++ r) := by
  unfold getStatefulsetName Sprintf
  rw [getObjectName_statefulSet, String.data_append, doPrintf_literal _ _ _ h]
  simp [doPrintf, opensWidth, printArg, extraString, String.ext_iff, String.singleton]

/-- The keys of the three existence checks and the arguments of the pod listing, in terms
of the parent the pass fetched. -/
theorem lookup_keys {σ : Type} (c : Client σ) (b : Builders) (req : Request) (st : σ)
    (k : NamespacedName) (eb : EventBroker)
    (hp : Event.getEventBroker k (Fetched.ok eb) ∈ (runPass c b req st).trace) :
    (∀ key res, Event.getService key res ∈ (runPass c b req st).trace →
        key = { Name := eb.Name ++ "-pubsubplus", Namespace := eb.Namespace })
    ∧ (∀ key res, Event.getConfigMap key res ∈ (runPass c b req st).trace →
        key = { Name := eb.Name ++ "-pubsubplus", Namespace := eb.Namespace })
    ∧ (∀ key res, Event.getStatefulSet key res ∈ (runPass c b req st).trace →
        key = { Name := eb.Name ++ "-pubsubplus-p", Namespace := eb.Namespace })
    ∧ (∀ ns labels res, Event.listPods ns labels res ∈ (runPass c b req st).trace →
        ns = eb.Namespace ∧ labels = baseLabels eb.Name)
    ∧ (∀ obj res, Event.create (Object.statefulSet obj) res ∈ (runPass c b req st).trace →
        obj = b.statefulsetForEventBroker eb "-p") := by
  revert hp
  simp only [runPass, Reconcile, traced]
  repeat' split
  all_goals
    simp only [Prod.mk.injEq] at *
    (try casesm* _ ∧ _)
    subst_vars
    intro hp
    simp_all

/-- C13 as stated fails at the parent `sample`, in the pass that creates the StatefulSet:
the builder is handed the suffix `-p`, not the role suffix `p`, and the name
`getStatefulsetName "sample" "-p"` that a builder naming through the Naming Resolver gives
the created object is `sample-pubsubplus--p`, while the existence check looked up
`sample-pubsubplus-p`; the next lookup does not find that object. -/
theorem statefulset_suffix_mismatch :
    (runPass clusterClient resolverBuilders (requestFor "sample")
        (storeAfter resolverBuilders (requestFor "sample") 2
          (parentOnly (parentNamed "sample" none)))).trace.drop 3
      = [Event.getStatefulSet { Name := "sample-pubsubplus-p", Namespace := "default" }
          (Fetched.error (notFound { Name := "sample-pubsubplus-p", Namespace := "default" })),
        Event.create (Object.statefulSet
          (resolverBuilders.statefulsetForEventBroker (parentNamed "sample" none) "-p")) none]
    ∧ getStatefulsetName "sample" "p" = some "sample-pubsubplus-p"
    ∧ getStatefulsetName "sample" "-p" = some "sample-pubsubplus--p"
    ∧ (resolverBuilders.statefulsetForEventBroker (parentNamed "sample" none) "-p").Name
        = "sample-pubsubplus--p"
    ∧ (clusterClient.GetStatefulSet
        (storeAfter resolverBuilders (requestFor "sample") 3
          (parentOnly (parentNamed "sample" none)))
        { Name := "sample-pubsubplus-p", Namespace := "default" }).1
      = Fetched.error (notFound { Name := "sample-pubsubplus-p", Namespace := "default" }) := by
  decide

/-- The path of a pass that creates a StatefulSet with success: the existence check before
it failed, the object is the one built for the suffix `-p`, and the store the pass leaves
is the one the create left. -/
theorem create_statefulset_path {σ : Type} (c : Client σ) (b : Builders) (req : Request)
    (st : σ) (k : NamespacedName) (eb : EventBroker) (obj : StatefulSet)
    (hp : Event.getEventBroker k (Fetched.ok eb) ∈ (runPass c b req st).trace)
    (hc : Event.create (Object.statefulSet obj) none ∈ (runPass c b req st).trace) :
    obj = b.statefulsetForEventBroker eb "-p"
    ∧ (∃ e, (c.GetStatefulSet
          (c.GetConfigMap
            (c.GetService (c.GetEventBroker st req.NamespacedName).2
              { Name := eb.Name ++ "-pubsubplus", Namespace := eb.Namespace }).2
            { Name := eb.Name ++ "-pubsubplus", Namespace := eb.Namespace }).2
          { Name := eb.Name ++ "-pubsubplus-p", Namespace := eb.Namespace }).1
        = Fetched.error e
      ∧ Event.getStatefulSet { Name := eb.Name ++ "-pubsubplus-p", Namespace := eb.Namespace }
          (Fetched.error e) ∈ (runPass c b req st).trace)
    ∧ (c.Create
        (c.GetStatefulSet
          (c.GetConfigMap
            (c.GetService (c.GetEventBroker st req.NamespacedName).2
              { Name := eb.Name ++ "-pubsubplus", Namespace := eb.Namespace }).2
            { Name := eb.Name ++ "-pubsubplus", Namespace := eb.Namespace }).2
          { Name := eb.Name ++ "-pubsubplus-p", Namespace := eb.Namespace }).2
        (Object.statefulSet obj)).1 = none
    ∧ (runPass c b req st).store = (c.Create
        (c.GetStatefulSet
          (c.GetConfigMap
            (c.GetService (c.GetEventBroker st req.NamespacedName).2
              { Name := eb.Name ++ "-pubsubplus", Namespace := eb.Namespace }).2
            { Name := eb.Name ++ "-pubsubplus", Namespace := eb.Namespace }).2
          { Name := eb.Name ++ "-pubsubplus-p", Namespace := eb.Namespace }).2
        (Object.statefulSet obj)).2 := by
  revert hp hc
  simp only [runPass, Reconcile, traced]
  repeat' split
  all_goals
    simp only [Prod.mk.injEq] at *
    (try casesm* _ ∧ _)
    subst_vars
    intro hp hc
    simp_all

/-- C13, as the code has it: in the primary-StatefulSet step `Reconcile` hands the builder
the suffix `-p`; with a builder that gives the object built for that suffix the name of
the parent followed by `-pubsubplus` and the suffix, in the namespace of the parent, the
object a pass creates carries the name `eb.Name ++ "-pubsubplus-p"` that the existence
check looked up and missed, and the same lookup on the store the pass leaves finds
exactly that object. -/
theorem created_statefulset_is_found (b : Builders) (cl : Cluster) (req : Request)
    (k : NamespacedName) (eb : EventBroker) (obj : StatefulSet)
    (hp : Event.getEventBroker k (Fetched.ok eb) ∈ (runPass clusterClient b req cl).trace)
    (hc : Event.create (Object.statefulSet obj) none ∈ (runPass clusterClient b req cl).trace)
    (hb : (b.statefulsetForEventBroker eb "-p").Name = eb.Name ++ "-pubsubplus" ++ "-p"
      ∧ (b.statefulsetForEventBroker eb "-p").Namespace = eb.Namespace) :
    obj = b.statefulsetForEventBroker eb "-p"
    ∧ obj.Name = eb.Name ++ "-pubsubplus-p"
    ∧ (∃ e, Event.getStatefulSet
          { Name := eb.Name ++ "-pubsubplus-p", Namespace := eb.Namespace } (Fetched.error e)
        ∈ (runPass clusterClient b req cl).trace)
    ∧ (clusterClient.GetStatefulSet (runPass clusterClient b req cl).store
        { Name := eb.Name ++ "-pubsubplus-p", Namespace := eb.Namespace }).1
      = Fetched.ok obj := by
  obtain ⟨hobj, ⟨e, hmiss, hev⟩, hok, hstore⟩ :=
    create_statefulset_path clusterClient b req cl k eb obj hp hc
  obtain ⟨hname, hns⟩ := hb
  have e3 : eb.Name ++ "-pubsubplus" ++ "-p" = eb.Name ++ "-pubsubplus-p" := by
    simp [String.ext_iff]
  rw [e3, ← hobj] at hname
  rw [← hobj] at hns
  refine ⟨hobj, hname, ⟨e, hev⟩, ?_⟩
  rw [hstore]
  simp only [clusterClient] at hmiss hok ⊢
  have hnone : cl.statefulsets.find? (fun x =>
      x.Namespace == eb.Namespace && x.Name == eb.Name ++ "-pubsubplus-p") = none := by
    cases hf : cl.statefulsets.find? (fun x =>
      x.Namespace == eb.Namespace && x.Name == eb.Name ++ "-pubsubplus-p") with
    | none => rfl
    | some x => simp [hf, fetchedOf] at hmiss
  by_cases hany : cl.statefulsets.any (fun x =>
      x.Namespace == obj.Namespace && x.Name == obj.Name) = true
  · simp [Cluster.create, hany] at hok
  · simp only [Cluster.create, hany]
    simp [fetchedOf_ok, List.find?_append, hnone, hname, hns]

/-- C13 at the parent `sample`, in the pass that creates the StatefulSet, with a builder
that appends the suffix it is given. -/
theorem created_statefulset_is_found_witness :
    appendingBuilders.statefulsetForEventBroker (parentNamed "sample" none) "-p"
      = appendingBuilders.statefulsetForEventBroker (parentNamed "sample" none) "-p"
    ∧ (appendingBuilders.statefulsetForEventBroker (parentNamed "sample" none) "-p").Name
      = (parentNamed "sample" none).Name ++ "-pubsubplus-p"
    ∧ (∃ e, Event.getStatefulSet
          { Name := (parentNamed "sample" none).Name ++ "-pubsubplus-p",
            Namespace := (parentNamed "sample" none).Namespace } (Fetched.error e)
        ∈ (runPass clusterClient appendingBuilders (requestFor "sample")
            (storeAfter appendingBuilders (requestFor "sample") 2
              (parentOnly (parentNamed "sample" none)))).trace)
    ∧ (clusterClient.GetStatefulSet
        (runPass clusterClient appendingBuilders (requestFor "sample")
          (storeAfter appendingBuilders (requestFor "sample") 2
            (parentOnly (parentNamed "sample" none)))).store
        { Name := (parentNamed "sample" none).Name ++ "-pubsubplus-p",
          Namespace := (parentNamed "sample" none).Namespace }).1
      = Fetched.ok
          (appendingBuilders.statefulsetForEventBroker (parentNamed "sample" none) "-p") :=
  created_statefulset_is_found appendingBuilders
    (storeAfter appendingBuilders (requestFor "sample") 2
      (parentOnly (parentNamed "sample" none)))
    (requestFor "sample") (requestFor "sample").NamespacedName (parentNamed "sample" none)
    (appendingBuilders.statefulsetForEventBroker (parentNamed "sample" none) "-p")
    (by decide) (by decide) ⟨by decide, by decide⟩

/-- The existence checks a pass makes, by their place among its calls: the Service right
after the fetch of the parent, the ConfigMap when the Service was found, the StatefulSet
when the ConfigMap was found. -/
theorem lookup_positions {σ : Type} (c : Client σ) (b : Builders) (req : Request) (st : σ)
    (k : NamespacedName) (eb : EventBroker)
    (hp : Event.getEventBroker k (Fetched.ok eb) ∈ (runPass c b req st).trace) :
    (∃ res, (runPass c b req st).trace[1]? = some (Event.getService
        { Name := eb.Name ++ "-pubsubplus", Namespace := eb.Namespace } res))
    ∧ ((∃ key svc, Event.getService key (Fetched.ok svc) ∈ (runPass c b req st).trace) →
        ∃ res, (runPass c b req st).trace[2]? = some (Event.getConfigMap
          { Name := eb.Name ++ "-pubsubplus", Namespace := eb.Namespace } res))
    ∧ ((∃ key cm, Event.getConfigMap key (Fetched.ok cm) ∈ (runPass c b req st).trace) →
        ∃ res, (runPass c b req st).trace[3]? = some (Event.getStatefulSet
          { Name := eb.Name ++ "-pubsubplus-p", Namespace := eb.Namespace } res)) := by
  revert hp
  simp only [runPass, Reconcile, traced]
  repeat' split
  all_goals
    simp only [Prod.mk.injEq] at *
    (try casesm* _ ∧ _)
    subst_vars
    intro hp
    simp_all

/-- C14: in a pass that fetched the parent `eb`, whose name as a Kubernetes object name
holds no `%`, the existence checks are made under the canonical names of the Naming
Resolver, in the namespace of the parent: the Service under
`getObjectName "Service" eb.Name` right after the fetch, the ConfigMap under
`getObjectName "ConfigMap" eb.Name` once the Service is found, the primary StatefulSet
under `getStatefulsetName eb.Name "p"` once the ConfigMap is found; and no get of a
Service, ConfigMap or StatefulSet in the pass uses another key. -/
theorem existence_checks_canonical {σ : Type} (c : Client σ) (b : Builders) (req : Request)
    (st : σ) (k : NamespacedName) (eb : EventBroker)
    (hp : Event.getEventBroker k (Fetched.ok eb) ∈ (runPass c b req st).trace)
    (hn : '%' ∉ eb.Name.data) :
    (∃ res, (runPass c b req st).trace[1]? = some (Event.getService
        { Name := getObjectName "Service" eb.Name, Namespace := eb.Namespace } res))
    ∧ ((∃ key svc, Event.getService key (Fetched.ok svc) ∈ (runPass c b req st).trace) →
        ∃ res, (runPass c b req st).trace[2]? = some (Event.getConfigMap
          { Name := getObjectName "ConfigMap" eb.Name, Namespace := eb.Namespace } res))
    ∧ ((∃ key cm, Event.getConfigMap key (Fetched.ok cm) ∈ (runPass c b req st).trace) →
        ∃ name res, getStatefulsetName eb.Name "p" = some name
          ∧ (runPass c b req st).trace[3]? = some (Event.getStatefulSet
              { Name := name, Namespace := eb.Namespace } res))
    ∧ (∀ key res, Event.getService key res ∈ (runPass c b req st).trace →
        key = { Name := getObjectName "Service" eb.Name, Namespace := eb.Namespace })
    ∧ (∀ key res, Event.getConfigMap key res ∈ (runPass c b req st).trace →
        key = { Name := getObjectName "ConfigMap" eb.Name, Namespace := eb.Namespace })
    ∧ (∀ key res, Event.getStatefulSet key res ∈ (runPass c b req st).trace →
        getStatefulsetName eb.Name "p" = some key.Name ∧ key.Namespace = eb.Namespace) := by
  obtain ⟨hsvc, hcm, hsts, _, _⟩ := lookup_keys c b req st k eb hp
  obtain ⟨p1, p2, p3⟩ := lookup_positions c b req st k eb hp
  have e1 : getObjectName "Service" eb.Name = eb.Name ++ "-pubsubplus" := by
    simp [getObjectName, mapIndex, nameSuffix, mapLookup]
  have e2 : getObjectName "ConfigMap" eb.Name = eb.Name ++ "-pubsubplus" := by
    simp [getObjectName, mapIndex, nameSuffix, mapLookup]
  have e3 : getStatefulsetName eb.Name "p" = some (eb.Name ++ "-pubsubplus-p") := by
    rw [getStatefulsetName_template _ _ hn]
    simp [String.ext_iff]
  rw [e1, e2, e3]
  refine ⟨p1, p2, ?_, hsvc, hcm, ?_⟩
  · intro h
    obtain ⟨res, hres⟩ := p3 h
    exact ⟨_, res, rfl, hres⟩
  · intro key res h
    rw [hsts key res h]
    exact ⟨rfl, rfl⟩

/-- C14 at the steady store of the parent `a`: the three checks are made. -/
theorem existence_checks_canonical_witness :
    (∃ res, (runPass clusterClient resolverBuilders (requestFor "a")
        (steadyCluster (parentNamed "a" none) [])).trace[1]? = some (Event.getService
        { Name := getObjectName "Service" (parentNamed "a" none).Name,
          Namespace := (parentNamed "a" none).Namespace } res))
    ∧ ((∃ key svc, Event.getService key (Fetched.ok svc) ∈
          (runPass clusterClient resolverBuilders (requestFor "a")
            (steadyCluster (parentNamed "a" none) [])).trace) →
        ∃ res, (runPass clusterClient resolverBuilders (requestFor "a")
          (steadyCluster (parentNamed "a" none) [])).trace[2]? = some (Event.getConfigMap
          { Name := getObjectName "ConfigMap" (parentNamed "a" none).Name,
            Namespace := (parentNamed "a" none).Namespace } res))
    ∧ ((∃ key cm, Event.getConfigMap key (Fetched.ok cm) ∈
          (runPass clusterClient resolverBuilders (requestFor "a")
            (steadyCluster (parentNamed "a" none) [])).trace) →
        ∃ name res, getStatefulsetName (parentNamed "a" none).Name "p" = some name
          ∧ (runPass clusterClient resolverBuilders (requestFor "a")
              (steadyCluster (parentNamed "a" none) [])).trace[3]? = some (Event.getStatefulSet
              { Name := name, Namespace := (parentNamed "a" none).Namespace } res))
    ∧ (∀ key res, Event.getService key res ∈
        (runPass clusterClient resolverBuilders (requestFor "a")
          (steadyCluster (parentNamed "a" none) [])).trace →
        key = { Name := getObjectName "Service" (parentNamed "a" none).Name,
                Namespace := (parentNamed "a" none).Namespace })
    ∧ (∀ key res, Event.getConfigMap key res ∈
        (runPass clusterClient resolverBuilders (requestFor "a")
          (steadyCluster (parentNamed "a" none) [])).trace →
        key = { Name := getObjectName "ConfigMap" (parentNamed "a" none).Name,
                Namespace := (parentNamed "a" none).Namespace })
    ∧ (∀ key res, Event.getStatefulSet key res ∈
        (runPass clusterClient resolverBuilders (requestFor "a")
          (steadyCluster (parentNamed "a" none) [])).trace →
        getStatefulsetName (parentNamed "a" none).Name "p" = some key.Name
        ∧ key.Namespace = (parentNamed "a" none).Namespace) :=
  existence_checks_canonical clusterClient resolverBuilders (requestFor "a")
    (steadyCluster (parentNamed "a" none) []) (requestFor "a").NamespacedName
    (parentNamed "a" none) (by decide) (by decide)

/-! ## The status write -/

/-- The names `getPodNames` collects, as a sequence, are the names of the pods in listing
order. -/
theorem getPodNames_getD (pods : List Pod) :
    (getPodNames pods).getD [] = pods.map Pod.Name := by
  rw [getPodNames_eq]
  by_cases h : pods = []
  · simp [h]
  · simp [h]

/-- The shape of a pass that writes the status: the parent fetched, the pods listed, the
object written and the write as the one mutating call. -/
theorem status_write_shape {σ : Type} (c : Client σ) (b : Builders) (req : Request)
    (st : σ) (eb2 : EventBroker) (res : Option APIError)
    (hw : Event.statusUpdate eb2 res ∈ (runPass c b req st).trace) :
    ∃ k eb ns labels pods,
      Event.getEventBroker k (Fetched.ok eb) ∈ (runPass c b req st).trace
      ∧ Event.listPods ns labels (Fetched.ok pods) ∈ (runPass c b req st).trace
      ∧ eb2 = { Name := eb.Name, Namespace := eb.Namespace, Spec := eb.Spec,
                Status := { BrokerPods := getPodNames pods } }
      ∧ (runPass c b req st).trace.filter Event.isMutating = [Event.statusUpdate eb2 res] := by
  revert hw
  simp only [runPass, Reconcile, traced]
  repeat' split
  all_goals
    simp only [Prod.mk.injEq] at *
    (try casesm* _ ∧ _)
    subst_vars
    intro hw
    first
      | (simp_all [Event.isMutating]; done)
      | (simp_all [Event.isMutating]
         exact ⟨_, _, ⟨rfl, rfl⟩, _, _, _, ⟨rfl, rfl, rfl⟩, rfl, rfl, rfl, rfl⟩)

/-- C15: when a pass writes the status, the object written is the parent it fetched with
`BrokerPods` replaced by the names of the listed pods, in listing order and as many as
the pods; name, namespace and spec are those of the fetched parent, and the write is the
only mutating call of the pass, so no child object is modified. -/
theorem status_write_object {σ : Type} (c : Client σ) (b : Builders) (req : Request)
    (st : σ) (eb2 : EventBroker) (res : Option APIError)
    (hw : Event.statusUpdate eb2 res ∈ (runPass c b req st).trace) :
    ∃ k eb ns labels pods,
      Event.getEventBroker k (Fetched.ok eb) ∈ (runPass c b req st).trace
      ∧ Event.listPods ns labels (Fetched.ok pods) ∈ (runPass c b req st).trace
      ∧ eb2 = { eb with Status := { eb.Status with BrokerPods := getPodNames pods } }
      ∧ eb2.Name = eb.Name ∧ eb2.Namespace = eb.Namespace ∧ eb2.Spec = eb.Spec
      ∧ eb2.Status.BrokerPods = getPodNames pods
      ∧ (getPodNames pods).getD [] = pods.map Pod.Name
      ∧ ((getPodNames pods).getD []).length = pods.length
      ∧ (∀ i : Nat, ((getPodNames pods).getD [])[i]? = (pods[i]?).map Pod.Name)
      ∧ (runPass c b req st).trace.filter Event.isMutating = [Event.statusUpdate eb2 res]
      ∧ (∀ ev ∈ (runPass c b req st).trace,
          ev.isCreate = false ∧ ev.isUpdateOrDelete = false) := by
  obtain ⟨k, eb, ns, labels, pods, h1, h2, h3, h4⟩ := status_write_shape c b req st eb2 res hw
  refine ⟨k, eb, ns, labels, pods, h1, h2, h3, ?_, ?_, ?_, ?_, getPodNames_getD pods, ?_, ?_,
    h4, ?_⟩
  · rw [h3]
  · rw [h3]
  · rw [h3]
  · rw [h3]
  · rw [getPodNames_getD, List.length_map]
  · intro i
    rw [getPodNames_getD, List.getElem?_map]
  · intro ev hev
    have hmut : ev.isMutating = true → ev = Event.statusUpdate eb2 res := by
      intro hm
      have : ev ∈ (runPass c b req st).trace.filter Event.isMutating :=
        List.mem_filter.2 ⟨hev, hm⟩
      rw [h4] at this
      simpa using this
    cases ev <;> simp [Event.isCreate, Event.isUpdateOrDelete] <;>
      simp [Event.isMutating] at hmut

/-- C15 at the store of the parent `a` with stored pod names `a-0` and the pods `a-0` and
`a-1` listed. -/
theorem status_write_object_witness :
    ∃ k eb ns labels pods,
      Event.getEventBroker k (Fetched.ok eb) ∈
        (runPass clusterClient resolverBuilders (requestFor "a")
          (steadyCluster (parentNamed "a" (some ["a-0"]))
            [brokerPod "a" "a-0" "message-routing-primary",
              brokerPod "a" "a-1" "message-routing-primary"])).trace
      ∧ Event.listPods ns labels (Fetched.ok pods) ∈
        (runPass clusterClient resolverBuilders (requestFor "a")
          (steadyCluster (parentNamed "a" (some ["a-0"]))
            [brokerPod "a" "a-0" "message-routing-primary",
              brokerPod "a" "a-1" "message-routing-primary"])).trace
      ∧ parentNamed "a" (some ["a-0", "a-1"])
          = { eb with Status := { eb.Status with BrokerPods := getPodNames pods } }
      ∧ (parentNamed "a" (some ["a-0", "a-1"])).Name = eb.Name
      ∧ (parentNamed "a" (some ["a-0", "a-1"])).Namespace = eb.Namespace
      ∧ (parentNamed "a" (some ["a-0", "a-1"])).Spec = eb.Spec
      ∧ (parentNamed "a" (some ["a-0", "a-1"])).Status.BrokerPods = getPodNames pods
      ∧ (getPodNames pods).getD [] = pods.map Pod.Name
      ∧ ((getPodNames pods).getD []).length = pods.length
      ∧ (∀ i : Nat, ((getPodNames pods).getD [])[i]? = (pods[i]?).map Pod.Name)
      ∧ (runPass clusterClient resolverBuilders (requestFor "a")
          (steadyCluster (parentNamed "a" (some ["a-0"]))
            [brokerPod "a" "a-0" "message-routing-primary",
              brokerPod "a" "a-1" "message-routing-primary"])).trace.filter Event.isMutating
          = [Event.statusUpdate (parentNamed "a" (some ["a-0", "a-1"])) none]
      ∧ (∀ ev ∈ (runPass clusterClient resolverBuilders (requestFor "a")
          (steadyCluster (parentNamed "a" (some ["a-0"]))
            [brokerPod "a" "a-0" "message-routing-primary",
              brokerPod "a" "a-1" "message-routing-primary"])).trace,
          ev.isCreate = false ∧ ev.isUpdateOrDelete = false) :=
  status_write_object clusterClient resolverBuilders (requestFor "a")
    (steadyCluster (parentNamed "a" (some ["a-0"]))
      [brokerPod "a" "a-0" "message-routing-primary",
        brokerPod "a" "a-1" "message-routing-primary"])
    (parentNamed "a" (some ["a-0", "a-1"])) none (by decide)

/-- C16: the selector of the pod listing is `baseLabels` of the name of the parent, in the
namespace of the parent; `baseLabels n` has the instance `n` and the component name
`eventbroker` and no other key, it is the discovery selector of `n`, each of its pairs is
a pair of the pod labels of `n` for every node type, so it matches them, and neither
`active` nor `managed-by` is a key of it. -/
theorem pod_selector_is_baseLabels {σ : Type} (c : Client σ) (b : Builders) (req : Request)
    (st : σ) (n t : String) :
    (∀ k eb ns labels res,
        Event.getEventBroker k (Fetched.ok eb) ∈ (runPass c b req st).trace →
        Event.listPods ns labels res ∈ (runPass c b req st).trace →
        ns = eb.Namespace ∧ labels = baseLabels eb.Name)
    ∧ mapLookup (baseLabels n) "app.kubernetes.io/instance" = some n
    ∧ mapLookup (baseLabels n) "app.kubernetes.io/name" = some "eventbroker"
    ∧ (∀ k, k ∈ mapKeys (baseLabels n) ↔
        k ∈ ["app.kubernetes.io/instance", "app.kubernetes.io/name"])
    ∧ baseLabels n = getDiscoveryServiceSelector n
    ∧ (∀ kv ∈ baseLabels n, mapLookup (getPodLabels n t) kv.1 = some kv.2)
    ∧ matchesLabels (baseLabels n) (getPodLabels n t) = true
    ∧ "active" ∉ mapKeys (baseLabels n)
    ∧ "app.kubernetes.io/managed-by" ∉ mapKeys (baseLabels n) := by
  refine ⟨?_, ?_⟩
  · intro k eb ns labels res hp hl
    exact (lookup_keys c b req st k eb hp).2.2.2.1 ns labels res hl
  · simp [baseLabels, getDiscoveryServiceSelector, getPodLabels, mapLookup, mapKeys,
      matchesLabels]

end PubSubPlus
